import Mathlib

/-!
Verification of the D-LITE socket gateway core against its specification.

The definitions below are a shallow embedding of the gateway's JavaScript
source (`src/utils/retry.js`, `src/utils/rateLimiter.js`,
`src/utils/validation.js`, `src/services/messageService.js`,
`src/handlers/messageHandlers.js`, `src/handlers/connectionHandlers.js`,
`src/server.js`).  Timestamps are `Int` milliseconds (JS `Date.now()`),
retry delays are rationals (the jitter is `Math.random()`-valued), and
JS truthiness on optional string fields is modelled explicitly.  Calls to
external collaborators are modelled by explicit outcome parameters, and the
ambient clock by an explicit `now` argument (each handler invocation reads
the clock at a single modelled instant).
-/

namespace DLite

/-- JS truthiness of an optional string field: `undefined`/`null` and the
empty string are falsy, every other string is truthy. -/
def jsTruthy : Option String → Bool
  | none => false
  | some s => !(s == "")

/-- JS `String.prototype.trim()`: strip leading and trailing whitespace.
Defined over the character list so that it evaluates inside the kernel. -/
def jsTrim (s : String) : String :=
  String.mk (((s.data.dropWhile Char.isWhitespace).reverse.dropWhile Char.isWhitespace).reverse)

/-- JS `x || d` on a numeric option field (`0` and `undefined` are falsy),
used by the `CircuitBreaker` constructor's defaulting. -/
def jsOrNat (x d : Nat) : Nat :=
  if x == 0 then d else x

/-- JS `x || d` for an `Int`-valued option field. -/
def jsOrInt (x d : Int) : Int :=
  if x == 0 then d else x

/-! ## Circuit breaker (`src/utils/retry.js`, class `CircuitBreaker`) -/

/-- The three values of `this.state` in `CircuitBreaker`:
`'CLOSED'`, `'OPEN'`, `'HALF_OPEN'`. -/
inductive CBState where
  | CLOSED
  | OPEN
  | HALF_OPEN
deriving DecidableEq, Repr

/-- The mutable fields of the `CircuitBreaker` class, plus its three
configuration options. -/
structure CircuitBreaker where
  failureThreshold : Nat
  resetTimeout : Int
  monitorInterval : Int
  failures : Nat
  lastFailureTime : Option Int
  state : CBState
  nextAttemptTime : Option Int
deriving DecidableEq, Repr

/-- The `CircuitBreaker` constructor: `options.x || default` defaulting,
counters zeroed, state `CLOSED`. -/
def CircuitBreaker.create (failureThreshold : Nat) (resetTimeout monitorInterval : Int) :
    CircuitBreaker :=
  { failureThreshold := jsOrNat failureThreshold 5
    resetTimeout := jsOrInt resetTimeout 60000
    monitorInterval := jsOrInt monitorInterval 10000
    failures := 0
    lastFailureTime := none
    state := CBState.CLOSED
    nextAttemptTime := none }

/-- `CircuitBreaker.open()`: state `OPEN`, `nextAttemptTime = now + resetTimeout`.
Named `openCircuit` because `open` is a Lean keyword. -/
def CircuitBreaker.openCircuit (cb : CircuitBreaker) (now : Int) : CircuitBreaker :=
  { cb with state := CBState.OPEN, nextAttemptTime := some (now + cb.resetTimeout) }

/-- `CircuitBreaker.close()`: state `CLOSED`, counters and timestamps cleared. -/
def CircuitBreaker.closeCircuit (cb : CircuitBreaker) : CircuitBreaker :=
  { cb with state := CBState.CLOSED, failures := 0,
            lastFailureTime := none, nextAttemptTime := none }

/-- `CircuitBreaker.recordFailure()`: the guard
`if (this.lastFailureTime && now - this.lastFailureTime > this.monitorInterval)`
resets the counter only when the previous failure timestamp is truthy
(`null` and the number `0` are falsy in JS) and older than
`monitorInterval`; then increment, and open the circuit once the
threshold is reached. -/
def CircuitBreaker.recordFailure (cb : CircuitBreaker) (now : Int) : CircuitBreaker :=
  let base : Nat :=
    match cb.lastFailureTime with
    | some t => if ¬ t = 0 ∧ now - t > cb.monitorInterval then 0 else cb.failures
    | none => cb.failures
  let failures := base + 1
  let cb1 := { cb with failures := failures, lastFailureTime := some now }
  if failures ≥ cb1.failureThreshold then cb1.openCircuit now else cb1

/-- Outcome of one `CircuitBreaker.execute(fn, fallback)` call.  The
underlying function `fn` was invoked exactly in the `ok`/`errored` cases. -/
inductive ExecOutcome (α : Type) where
  | ok (a : α)
  | fromFallback (a : α)
  | openNoFallback
  | errored
deriving DecidableEq, Repr

/-- `CircuitBreaker.execute(fn, fallback)`.  `fn` is modelled by its
outcome: `some a` when the wrapped call resolves with `a`, `none` when it
throws; `fallback` is `some b` when a fallback function returning `b` was
supplied.  In the `OPEN` fast-fail comparison `now < this.nextAttemptTime`,
a `null` field compares as `0`, exactly as in JS. -/
def CircuitBreaker.execute {α : Type} (cb : CircuitBreaker) (now : Int)
    (fn : Option α) (fallback : Option α) : ExecOutcome α × CircuitBreaker :=
  let attempt : CircuitBreaker → ExecOutcome α × CircuitBreaker := fun cb1 =>
    match fn with
    | some a =>
        if cb1.state = CBState.HALF_OPEN then (ExecOutcome.ok a, cb1.closeCircuit)
        else (ExecOutcome.ok a, cb1)
    | none => (ExecOutcome.errored, cb1.recordFailure now)
  if cb.state = CBState.OPEN then
    if now < (cb.nextAttemptTime.getD 0) then
      match fallback with
      | some b => (ExecOutcome.fromFallback b, cb)
      | none => (ExecOutcome.openNoFallback, cb)
    else
      attempt { cb with state := CBState.HALF_OPEN }
  else
    attempt cb

/-- One call made through a breaker, for reachability traces: the clock
reading, whether the wrapped function succeeds, and whether a fallback is
supplied. -/
structure CBCall where
  now : Int
  fnOk : Bool
  hasFallback : Bool
deriving DecidableEq, Repr

/-- The breaker state after one traced call. -/
def cbStep (cb : CircuitBreaker) (c : CBCall) : CircuitBreaker :=
  (cb.execute c.now (if c.fnOk then some () else none)
    (if c.hasFallback then some () else none)).2

/-- The breaker state after a sequence of traced calls. -/
def cbRun (cb : CircuitBreaker) (calls : List CBCall) : CircuitBreaker :=
  calls.foldl cbStep cb

/-! ## Retry with exponential backoff (`src/utils/retry.js`) -/

/-- `calculateBackoff(attempt, baseDelay, multiplier)`: delay before the
next attempt, `min(baseDelay * multiplier^(attempt-1) + jitter, 30000)`.
The sampled `Math.random() * 0.3 * baseDelay` jitter is passed in
explicitly; delays are rationals because the jitter is fractional. -/
def calculateBackoff (attempt : Nat) (baseDelay multiplier jitter : ℚ) : ℚ :=
  min (baseDelay * multiplier ^ (attempt - 1) + jitter) 30000

/-- Observable trace of one `retryWithBackoff` run: the returned value
(`none` when the final error is rethrown), how many times the wrapped
function was invoked, and the delays slept between attempts, in order. -/
structure RetryTrace (α : Type) where
  result : Option α
  calls : Nat
  delays : List ℚ
deriving Repr

/-- The attempt loop of `retryWithBackoff`, one step per `fn()` invocation.
`res k` is the outcome of the k-th invocation (1-indexed; `some a` resolves
with `a`, `none` throws), `retr k` whether `shouldRetry` accepts the k-th
error.  The fuel equals the number of attempts still allowed, so the
`fuel = 0` branch is never reached from `retryWithBackoff`. -/
def retryLoop {α : Type} (res : Nat → Option α) (retr : Nat → Bool)
    (baseDelay multiplier : ℚ) (jit : Nat → ℚ) (maxRetries : Nat) :
    Nat → Nat → RetryTrace α
  | _, 0 => ⟨none, 0, []⟩
  | attempt, fuel + 1 =>
    match res attempt with
    | some a => ⟨some a, 1, []⟩
    | none =>
      if attempt = maxRetries + 1 ∨ retr attempt = false then ⟨none, 1, []⟩
      else
        let d := calculateBackoff attempt baseDelay multiplier (jit attempt)
        let rest := retryLoop res retr baseDelay multiplier jit maxRetries (attempt + 1) fuel
        ⟨rest.result, rest.calls + 1, d :: rest.delays⟩

/-- `retryWithBackoff(fn, {maxRetries, baseDelay, multiplier, shouldRetry})`:
run the attempt loop starting at attempt 1, with at most `maxRetries + 1`
attempts. -/
def retryWithBackoff {α : Type} (res : Nat → Option α) (retr : Nat → Bool)
    (baseDelay multiplier : ℚ) (jit : Nat → ℚ) (maxRetries : Nat) : RetryTrace α :=
  retryLoop res retr baseDelay multiplier jit maxRetries 1 (maxRetries + 1)

/-- `breaker.execute(() => retryWithBackoff(fn, opts), fallback)`: the
composition used by `saveMessage` — the whole retry sequence is a single
call through the breaker. -/
def executeWithRetry {α : Type} (cb : CircuitBreaker) (now : Int)
    (res : Nat → Option α) (retr : Nat → Bool) (baseDelay multiplier : ℚ)
    (jit : Nat → ℚ) (maxRetries : Nat) (fallback : Option α) :
    ExecOutcome α × CircuitBreaker :=
  cb.execute now (retryWithBackoff res retr baseDelay multiplier jit maxRetries).result fallback

/-! ## Rate limiter (`src/utils/rateLimiter.js`) -/

/-- One value of the `rateLimitStore` map: request count and window end. -/
structure RateEntry where
  count : Nat
  resetTime : Int
deriving DecidableEq, Repr

/-- The `rateLimitStore` JS `Map`, as an insertion-ordered association list
from `userId:eventName` keys to entries. -/
abbrev RateStore := List (String × RateEntry)

/-- JS `Map.get`. -/
def storeGet (s : RateStore) (k : String) : Option RateEntry :=
  match s with
  | [] => none
  | (k', e) :: rest => if k' = k then some e else storeGet rest k

/-- JS `Map.set`: replace in place when the key exists, append otherwise. -/
def storeSet (s : RateStore) (k : String) (e : RateEntry) : RateStore :=
  match s with
  | [] => [(k, e)]
  | (k', e') :: rest =>
    if k' = k then (k, e) :: rest else (k', e') :: storeSet rest k e

/-- The checker closure returned by `createRateLimiter`: admit with a fresh
entry when the key is absent or `entry.resetTime < now`; otherwise
increment and admit exactly when the new count is `<= maxRequests`
(on rejection the handler emits a rate-limit error to the socket). -/
def checkRateLimit (store : RateStore) (key : String) (now : Int)
    (maxRequests : Nat) (windowMs : Int) : Bool × RateStore :=
  match storeGet store key with
  | none => (true, storeSet store key ⟨1, now + windowMs⟩)
  | some entry =>
    if entry.resetTime < now then
      (true, storeSet store key ⟨1, now + windowMs⟩)
    else
      (decide (entry.count + 1 ≤ maxRequests),
       storeSet store key ⟨entry.count + 1, entry.resetTime⟩)

/-- A sequence of checks for one key: fold the store through the request
times, collecting each admission decision. -/
def rateRun (key : String) (maxRequests : Nat) (windowMs : Int) :
    List Int → RateStore → List Bool × RateStore
  | [], store => ([], store)
  | t :: ts, store =>
    let (ok, store') := checkRateLimit store key t maxRequests windowMs
    let (oks, store'') := rateRun key maxRequests windowMs ts store'
    (ok :: oks, store'')

/-! ## Message validation (`src/utils/validation.js`)

Environment-driven limits at their defaults (no overriding variables). -/

def MAX_MESSAGE_LENGTH : Nat := 10000

def MAX_USER_ID_LENGTH : Nat := 256

def MAX_RECEIVER_ID_LENGTH : Nat := 256

def MAX_GROUP_ID_LENGTH : Nat := 256

def MAX_MESSAGE_EXPIRY_HOURS : Nat := 24

def MAX_MESSAGE_EXPIRY_MS : Int := (MAX_MESSAGE_EXPIRY_HOURS : Int) * 60 * 60 * 1000

/-- The object passed to `validateMessage`: each field may be absent
(JS `undefined`) or a string.  Payload fields of non-string runtime type
are outside the model, so the `typeof x !== 'string'` guards never fire. -/
structure MessagePayload where
  sender_id : Option String
  receiver_id : Option String
  group_id : Option String
  content : Option String
  message_type : Option String
  expires_at : Option String
deriving DecidableEq, Repr

/-- The `sender_id` if/else-if chain of `validateMessage`. -/
def senderIdErrors (m : MessagePayload) : List String :=
  if !jsTruthy m.sender_id then ["sender_id is required"]
  else
    let s := m.sender_id.getD ""
    if (jsTrim s).length == 0 then ["sender_id must be a non-empty string"]
    else if s.length > MAX_USER_ID_LENGTH then
      ["sender_id must be less than " ++ toString MAX_USER_ID_LENGTH ++ " characters"]
    else []

/-- The receiver/group target checks of `validateMessage`: at least one of
the two must be truthy, and each one supplied must fit its length cap. -/
def targetErrors (m : MessagePayload) : List String :=
  (if !jsTruthy m.receiver_id && !jsTruthy m.group_id then
      ["Either receiver_id or group_id is required"]
    else [])
  ++ (if jsTruthy m.receiver_id && decide ((m.receiver_id.getD "").length > MAX_RECEIVER_ID_LENGTH) then
      ["receiver_id must be a string less than " ++ toString MAX_RECEIVER_ID_LENGTH ++ " characters"]
    else [])
  ++ (if jsTruthy m.group_id && decide ((m.group_id.getD "").length > MAX_GROUP_ID_LENGTH) then
      ["group_id must be a string less than " ++ toString MAX_GROUP_ID_LENGTH ++ " characters"]
    else [])

/-- The `content` if/else-if chain of `validateMessage`. -/
def contentErrors (m : MessagePayload) : List String :=
  if !jsTruthy m.content then ["content is required"]
  else
    let s := m.content.getD ""
    if (jsTrim s).length == 0 then ["content cannot be empty"]
    else if s.length > MAX_MESSAGE_LENGTH then
      ["content must be less than " ++ toString MAX_MESSAGE_LENGTH ++ " characters"]
    else []

/-- The `message_type` check: only validated when supplied and truthy. -/
def typeErrors (m : MessagePayload) : List String :=
  if jsTruthy m.message_type
      && !(["text", "image", "file", "video"].contains (m.message_type.getD "")) then
    ["message_type must be one of: text, image, file, video"]
  else []

/-- The `expires_at` checks.  `parseDate` stands for
`s => new Date(s).getTime()`, returning `none` on `NaN`; the field is only
examined when truthy. -/
def expiryErrors (m : MessagePayload) (parseDate : String → Option Int) (now : Int) :
    List String :=
  match m.expires_at with
  | none => []
  | some s =>
    if s == "" then []
    else
      match parseDate s with
      | none => ["expires_at must be a valid ISO timestamp"]
      | some t =>
        if t ≤ now then ["expires_at must be in the future"]
        else if t - now > MAX_MESSAGE_EXPIRY_MS then
          ["expires_at cannot be more than " ++ toString MAX_MESSAGE_EXPIRY_HOURS
            ++ " hours in the future"]
        else []

/-- `validateMessage(message)`: the accumulated `errors` array, in source
order.  The source throws `Validation error: <joined list>` exactly when
this list is nonempty. -/
def validateMessage (m : MessagePayload) (parseDate : String → Option Int) (now : Int) :
    List String :=
  senderIdErrors m ++ targetErrors m ++ contentErrors m ++ typeErrors m
    ++ expiryErrors m parseDate now

/-! Spec-side validity predicates, written from the specification's words
(section 4.3 step 2) to compare against the source's `validateMessage`. -/

/-- Modelled from the spec: a well-formed sender field — present, non-blank
after trimming, within the identifier length cap. -/
def specSenderOk (m : MessagePayload) : Bool :=
  jsTruthy m.sender_id && !((jsTrim (m.sender_id.getD "")).length == 0)
    && decide ((m.sender_id.getD "").length ≤ MAX_USER_ID_LENGTH)

/-- Modelled from the spec (as amended): at least one of direct-target and
group-target present, each supplied target within its length cap. -/
def specTargetOk (m : MessagePayload) : Bool :=
  (jsTruthy m.receiver_id || jsTruthy m.group_id)
    && (!jsTruthy m.receiver_id || decide ((m.receiver_id.getD "").length ≤ MAX_RECEIVER_ID_LENGTH))
    && (!jsTruthy m.group_id || decide ((m.group_id.getD "").length ≤ MAX_GROUP_ID_LENGTH))

/-- Modelled from the spec's words, before amendment: exactly one of
direct-target/group-target present. -/
def specExactlyOneTarget (m : MessagePayload) : Bool :=
  xor (jsTruthy m.receiver_id) (jsTruthy m.group_id)

/-- Modelled from the spec: non-empty content within the maximum length. -/
def specContentOk (m : MessagePayload) : Bool :=
  jsTruthy m.content && !((jsTrim (m.content.getD "")).length == 0)
    && decide ((m.content.getD "").length ≤ MAX_MESSAGE_LENGTH)

/-- Modelled from the spec: message type within the enumerated set
(an absent/falsy field is not validated). -/
def specTypeOk (m : MessagePayload) : Bool :=
  !jsTruthy m.message_type || ["text", "image", "file", "video"].contains (m.message_type.getD "")

/-- Modelled from the spec: a supplied expiry timestamp is parseable,
strictly in the future, and at most the configured horizon ahead. -/
def specExpiryOk (m : MessagePayload) (parseDate : String → Option Int) (now : Int) : Bool :=
  !jsTruthy m.expires_at
    || (match parseDate (m.expires_at.getD "") with
        | none => false
        | some t => decide (now < t) && decide (t - now ≤ MAX_MESSAGE_EXPIRY_MS))

/-! ## Message service (`src/services/messageService.js`) -/

/-- A message record: the payload built by the `send_message` handler and
the (possibly provisional) record returned by `saveMessage`.  `recId` and
`mongoId` model the `id` and `_id` fields; absent fields are `none`.
The ISO `timestamp` string is not modelled (no claim touches it). -/
structure MessageRecord where
  sender_id : String
  receiver_id : Option String
  group_id : Option String
  content : String
  message_type : String
  chat_type : String
  read : Bool
  recId : Option String
  mongoId : Option String
  status : Option String
  expires_at : Option String
deriving DecidableEq, Repr

/-- The locally generated temporary identifier, `temp_` + `Date.now()`. -/
def tempId (now : Int) : String :=
  "temp_" ++ toString now

/-- The circuit-open fallback record of `saveMessage`: the message spread
with a temporary `id`/`_id` and status `pending`. -/
def pendingRecord (msg : MessageRecord) (now : Int) : MessageRecord :=
  { msg with recId := some (tempId now), mongoId := some (tempId now),
             status := some "pending" }

/-- The catch-branch record of `saveMessage`: the message spread with a
temporary `id`/`_id` and status `failed`. -/
def failedRecord (msg : MessageRecord) (now : Int) : MessageRecord :=
  { msg with recId := some (tempId now), mongoId := some (tempId now),
             status := some "failed" }

/-- `saveMessage(message, token)`: runs the chat-service POST through
`retryAxiosRequest` (maxRetries 3, baseDelay 1000, multiplier 2) inside the
chat-service circuit breaker, with the `pending` record as the breaker's
fallback; any error escaping the breaker (circuit open without fallback, or
the rethrown final retry error) is caught and converted to the `failed`
record.  `attempts k` is the chat-service response to the k-th POST
(`some c` succeeds with canonical record `c`), `retr k` whether the k-th
error is retryable under the axios `shouldRetry`, `jit` the sampled
backoff jitter.  The JWT token only flows into headers, so it does not
appear in the model. -/
def saveMessage (msg : MessageRecord) (cb : CircuitBreaker) (now : Int)
    (attempts : Nat → Option MessageRecord) (retr : Nat → Bool) (jit : Nat → ℚ) :
    MessageRecord × CircuitBreaker :=
  match executeWithRetry cb now attempts retr 1000 2 jit 3 (some (pendingRecord msg now)) with
  | (ExecOutcome.ok r, cb') => (r, cb')
  | (ExecOutcome.fromFallback r, cb') => (r, cb')
  | (ExecOutcome.openNoFallback, cb') => (failedRecord msg now, cb')
  | (ExecOutcome.errored, cb') => (failedRecord msg now, cb')

/-! ## The `send_message` handler (`src/handlers/messageHandlers.js`) -/

/-- A socket emission performed by the `send_message` handler or by one of
its expiry timers.  Best-effort collaborator notifications (AI analysis,
presence, quantum-room events) are fire-and-forget with swallowed errors
and are not modelled. -/
inductive Emit where
  | errorMsg (msgs : List String)
  | receiveRoom (roomId : String) (rec : MessageRecord)
  | receiveSocket (socketId : String) (rec : MessageRecord)
  | messageSent (rec : MessageRecord)
  | deleteRoom (roomId : String) (messageId : Option String)
  | deleteSender (messageId : Option String)
  | deleteSocket (socketId : String) (messageId : Option String)
deriving DecidableEq, Repr

/-- An armed one-shot deletion timer: the `setTimeout` delay and the
emissions performed when it fires. -/
structure TimerSpec where
  delayMs : Int
  fire : List Emit
deriving DecidableEq, Repr

/-- Result of one `send_message` event.  `sent` carries the (possibly
provisional) saved record, the immediate emissions in order, and the
expiry timer if one was armed. -/
inductive SendOutcome where
  | rateLimited
  | invalid (errs : List String)
  | senderMismatch
  | missingTarget
  | sent (rec : MessageRecord) (events : List Emit) (timer : Option TimerSpec)
deriving DecidableEq, Repr

/-- `savedMessage._id || savedMessage.id`: the message id attached to a
scheduled deletion event. -/
def deliveredId (r : MessageRecord) : Option String :=
  if jsTruthy r.mongoId then r.mongoId else r.recId

/-- The `if (savedMessage.expires_at) { const expiryTime = new Date(...) -
Date.now(); if (expiryTime > 0) setTimeout(...) }` pattern: arm a one-shot
timer firing `fire` after `expiryTime` exactly when the saved record has a
truthy expiry that parses to a strictly future instant (an unparseable
date gives `NaN`, and `NaN > 0` is false). -/
def scheduleExpiry (expires_at : Option String) (parseDate : String → Option Int)
    (now : Int) (fire : List Emit) : Option TimerSpec :=
  match expires_at with
  | none => none
  | some s =>
    if s == "" then none
    else
      match parseDate s with
      | none => none
      | some t => if t - now > 0 then some ⟨t - now, fire⟩ else none

/-- The destructuring line of the handler: `message_type = 'text'` applies
only when the property is absent, before the payload reaches
`validateMessage`. -/
def normalizedPayload (data : MessagePayload) : MessagePayload :=
  { data with message_type := some (data.message_type.getD "text") }

/-- The message object the handler builds before calling `saveMessage`:
`chat_type` follows `isGroupMessage = !!group_id`, the direct target is
dropped on the group path, and `expires_at` is attached only when truthy. -/
def builtMessage (data : MessagePayload) : MessageRecord :=
  { sender_id := data.sender_id.getD ""
    receiver_id := if jsTruthy data.group_id then none else data.receiver_id
    group_id := if jsTruthy data.group_id then data.group_id else none
    content := data.content.getD ""
    message_type := data.message_type.getD "text"
    chat_type := if jsTruthy data.group_id then "group" else "private"
    read := false
    recId := none
    mongoId := none
    status := none
    expires_at := if jsTruthy data.expires_at then data.expires_at else none }

/-- The group room name, `group_<group_id>`. -/
def groupRoomId (data : MessagePayload) : String :=
  "group_" ++ data.group_id.getD ""

/-- Immediate emissions on the group path: broadcast the saved record to
the group room, then confirm to the sender. -/
def groupEvents (data : MessagePayload) (saved : MessageRecord) : List Emit :=
  [Emit.receiveRoom (groupRoomId data) saved, Emit.messageSent saved]

/-- The expiry timer armed on the group path: on fire, one deletion signal
to the same group room. -/
def groupTimer (data : MessagePayload) (saved : MessageRecord)
    (parseDate : String → Option Int) (now : Int) : Option TimerSpec :=
  scheduleExpiry saved.expires_at parseDate now
    [Emit.deleteRoom (groupRoomId data) (deliveredId saved)]

/-- Immediate emissions on the private path: deliver to the recipient's
session when one is registered, then confirm to the sender. -/
def privateEvents (receiverSocketId : Option String) (saved : MessageRecord) : List Emit :=
  (match receiverSocketId with
   | some sid => [Emit.receiveSocket sid saved]
   | none => []) ++ [Emit.messageSent saved]

/-- The deletion signals of the private expiry timer: always the sender's
own socket and, when the recipient had a session at send time, that same
socket. -/
def privateDeleteEvents (receiverSocketId : Option String) (mid : Option String) :
    List Emit :=
  Emit.deleteSender mid ::
    (match receiverSocketId with
     | some sid => [Emit.deleteSocket sid mid]
     | none => [])

/-- The expiry timer armed on the private path. -/
def privateTimer (receiverSocketId : Option String) (saved : MessageRecord)
    (parseDate : String → Option Int) (now : Int) : Option TimerSpec :=
  scheduleExpiry saved.expires_at parseDate now
    (privateDeleteEvents receiverSocketId (deliveredId saved))

/-- The `send_message` handler.  Inputs model the handler's environment:
`socketUserId` the authenticated identity, `receiverSocketId` the
`onlineUsers.get(receiver_id)` lookup, `rateLimitOk` the rate-limiter
admission, `cb` the chat-service breaker, and `attempts`/`retr`/`jit` the
chat-service behaviour as in `saveMessage`.  The clock is read once. -/
def sendMessageHandler (data : MessagePayload) (socketUserId : String)
    (receiverSocketId : Option String) (rateLimitOk : Bool)
    (cb : CircuitBreaker) (now : Int) (parseDate : String → Option Int)
    (attempts : Nat → Option MessageRecord) (retr : Nat → Bool) (jit : Nat → ℚ) :
    SendOutcome × CircuitBreaker :=
  if !rateLimitOk then (SendOutcome.rateLimited, cb) else
  if !(validateMessage (normalizedPayload data) parseDate now == []) then
    (SendOutcome.invalid (validateMessage (normalizedPayload data) parseDate now), cb) else
  if !(data.sender_id == some socketUserId) then (SendOutcome.senderMismatch, cb) else
  if !jsTruthy data.group_id && !jsTruthy data.receiver_id then
    (SendOutcome.missingTarget, cb) else
  if jsTruthy data.group_id then
    (SendOutcome.sent (saveMessage (builtMessage data) cb now attempts retr jit).1
      (groupEvents data (saveMessage (builtMessage data) cb now attempts retr jit).1)
      (groupTimer data (saveMessage (builtMessage data) cb now attempts retr jit).1
        parseDate now),
     (saveMessage (builtMessage data) cb now attempts retr jit).2)
  else
    (SendOutcome.sent (saveMessage (builtMessage data) cb now attempts retr jit).1
      (privateEvents receiverSocketId
        (saveMessage (builtMessage data) cb now attempts retr jit).1)
      (privateTimer receiverSocketId
        (saveMessage (builtMessage data) cb now attempts retr jit).1 parseDate now),
     (saveMessage (builtMessage data) cb now attempts retr jit).2)

/-! ## Session registry (`src/server.js` `onlineUsers` map and handlers) -/

/-- The `onlineUsers` JS `Map`, as an insertion-ordered association list
from identity to connection handle (socket id). -/
abbrev Registry := List (String × String)

/-- JS `Map.get`. -/
def regGet (m : Registry) (k : String) : Option String :=
  match m with
  | [] => none
  | (k', v) :: rest => if k' = k then some v else regGet rest k

/-- JS `Map.set` — `onlineUsers.set(userId, socket.id)` on connect:
replace in place when the identity exists, append otherwise. -/
def regSet (m : Registry) (k v : String) : Registry :=
  match m with
  | [] => [(k, v)]
  | (k', v') :: rest =>
    if k' = k then (k, v) :: rest else (k', v') :: regSet rest k v

/-- The disconnect handler's removal: scan the entries in order and delete
the first one whose socket id matches, then break. -/
def regDeleteBySocket (m : Registry) (sid : String) : Registry :=
  match m with
  | [] => []
  | (k, v) :: rest =>
    if v = sid then rest else (k, v) :: regDeleteBySocket rest sid

/-- A connection-lifecycle event seen by the registry. -/
inductive ConnEvent where
  | connect (userId socketId : String)
  | disconnect (socketId : String)
deriving DecidableEq, Repr

/-- The registry update for one event: `connect` is the
`registerConnectionHandlers` auto-registration, `disconnect` the
`server.js` handler keyed on the socket id. -/
def connStep (m : Registry) : ConnEvent → Registry
  | ConnEvent.connect u s => regSet m u s
  | ConnEvent.disconnect s => regDeleteBySocket m s

/-- The registry reached from the empty initial map by a list of events. -/
def connRun (events : List ConnEvent) : Registry :=
  events.foldl connStep []

/-! ## Concrete inputs used by the settled claims -/

/-- Five failing chat-service calls at time 1 (a truthy timestamp, so the
`recordFailure` reset guard is live, as for every realistic `Date.now()`)
followed by one failing call at the reopening boundary 30001, against the
repository's breaker configuration
(`failureThreshold 5, resetTimeout 30000, monitorInterval 10000`). -/
def cbFailTrace : List CBCall :=
  [⟨1, false, false⟩, ⟨1, false, false⟩, ⟨1, false, false⟩, ⟨1, false, false⟩,
   ⟨1, false, false⟩, ⟨30001, false, false⟩]

/-- A payload supplying both a direct target and a group target. -/
def bothTargetsPayload : MessagePayload :=
  { sender_id := some "alice", receiver_id := some "bob", group_id := some "g1"
    content := some "hi", message_type := some "text", expires_at := none }

/-- A breaker sitting open after five failures at time 0
(`resetTimeout 30000`), awaiting its reopening instant. -/
def openBreaker : CircuitBreaker :=
  { failureThreshold := 5, resetTimeout := 30000, monitorInterval := 10000
    failures := 5, lastFailureTime := some 0, state := CBState.OPEN
    nextAttemptTime := some 30000 }

/-- A private-message record as built by the handler. -/
def demoPrivateMessage : MessageRecord :=
  { sender_id := "alice", receiver_id := some "bob", group_id := none
    content := "hi", message_type := "text", chat_type := "private", read := false
    recId := none, mongoId := none, status := none, expires_at := none }

/-- A group payload carrying an expiry timestamp `E`. -/
def expiryDemoPayload : MessagePayload :=
  { sender_id := some "alice", receiver_id := none, group_id := some "g1"
    content := some "hi", message_type := some "text", expires_at := some "E" }

/-- A date-parse oracle sending `E` to instant 500. -/
def expiryDemoParse : String → Option Int :=
  fun s => if s == "E" then some 500 else none

/-- The provisional record the handler delivers for `expiryDemoPayload`
when every persistence attempt fails non-retryably at time 0. -/
def expiryDemoSaved : MessageRecord :=
  failedRecord (builtMessage expiryDemoPayload) 0

end DLite

namespace DLite

/-! ## Circuit-breaker theorems -/

/-- The breaker invariant of claim C8 as the code actually maintains it:
`nextAttemptTime` is set exactly when the state is not `CLOSED`. -/
def cbInv (cb : CircuitBreaker) : Prop :=
  cb.nextAttemptTime.isSome = true ↔ cb.state ≠ CBState.CLOSED

theorem cbInv_create (ft : Nat) (rt mi : Int) : cbInv (CircuitBreaker.create ft rt mi) := by
  simp [cbInv, CircuitBreaker.create]

theorem cbInv_recordFailure (cb : CircuitBreaker) (now : Int) (h : cbInv cb) :
    cbInv (cb.recordFailure now) := by
  unfold CircuitBreaker.recordFailure
  dsimp only
  split
  · simp [cbInv, CircuitBreaker.openCircuit]
  · simpa [cbInv] using h

theorem cbInv_execute {α : Type} (cb : CircuitBreaker) (now : Int)
    (fn : Option α) (fallback : Option α) (h : cbInv cb) :
    cbInv (cb.execute now fn fallback).2 := by
  unfold CircuitBreaker.execute
  dsimp only
  split
  · rename_i hopen
    split
    · split <;> simpa [cbInv] using h
    · cases fn with
      | some a =>
        simp only
        split
        · simp [cbInv, CircuitBreaker.closeCircuit]
        · simp_all
      | none =>
        apply cbInv_recordFailure
        simp only [cbInv] at h ⊢
        simp [hopen] at h
        simp [h]
  · cases fn with
    | some a =>
      simp only
      split
      · simp [cbInv, CircuitBreaker.closeCircuit]
      · simpa [cbInv] using h
    | none => exact cbInv_recordFailure _ _ h

theorem cbInv_cbRun (cb : CircuitBreaker) (calls : List CBCall) (h : cbInv cb) :
    cbInv (cbRun cb calls) := by
  induction calls generalizing cb with
  | nil => simpa [cbRun] using h
  | cons c rest ih =>
    simpa [cbRun, List.foldl_cons] using ih (cbStep cb c) (cbInv_execute _ _ _ _ h)

/-- C8 (counterexample to the claim as stated): a reachable breaker state —
five recorded failures at time 1 opening the circuit, then a failing trial
call at the reopening boundary 30001 (where the reset guard zeroes the
counter, so `open()` is not reached) — is in state `HALF_OPEN` while
`nextAttemptAt` is still set, so "`nextAttemptAt` is set if and only if
the state is OPEN" fails on the code. -/
theorem circuitBreaker_halfOpen_keeps_nextAttempt :
    (cbRun (CircuitBreaker.create 5 30000 10000) cbFailTrace).state = CBState.HALF_OPEN
    ∧ (cbRun (CircuitBreaker.create 5 30000 10000) cbFailTrace).nextAttemptTime
        = some 30001 := by
  constructor <;> rfl

/-- C8 (amended): in every state reachable from a freshly constructed
breaker, the state field is one of `CLOSED`/`OPEN`/`HALF_OPEN`, and
`nextAttemptAt` is set if and only if the state is not `CLOSED` — it is
set on opening and only cleared by `close()`, so the value opened with is
carried through `HALF_OPEN`. -/
theorem circuitBreaker_state_invariant (ft : Nat) (rt mi : Int) (calls : List CBCall) :
    ((cbRun (CircuitBreaker.create ft rt mi) calls).state = CBState.CLOSED
      ∨ (cbRun (CircuitBreaker.create ft rt mi) calls).state = CBState.OPEN
      ∨ (cbRun (CircuitBreaker.create ft rt mi) calls).state = CBState.HALF_OPEN)
    ∧ ((cbRun (CircuitBreaker.create ft rt mi) calls).nextAttemptTime.isSome = true
      ↔ (cbRun (CircuitBreaker.create ft rt mi) calls).state ≠ CBState.CLOSED) := by
  refine ⟨?_, cbInv_cbRun _ _ (cbInv_create ft rt mi)⟩
  cases (cbRun (CircuitBreaker.create ft rt mi) calls).state <;> simp

/-- C2 (the code at the failing input): with the repository configuration
(`failureThreshold 5, resetTimeout 30000, monitorInterval 10000`), after
five failures open the circuit at time 1 — any truthy failure timestamp,
i.e. every realistic clock reading — the trial call at time 30001 fails;
because the truthy last-failure timestamp is 30000ms old,
`recordFailure`'s guard first resets the counter, so the count reaches
only 1 and the breaker is left in `HALF_OPEN` with the stale
`nextAttemptTime` instead of transitioning back to `OPEN` with a fresh
one; the very next call invokes the underlying function instead of
failing fast. -/
theorem circuitBreaker_halfOpen_failure_not_reopened :
    (cbRun (CircuitBreaker.create 5 30000 10000) cbFailTrace).state = CBState.HALF_OPEN
    ∧ (cbRun (CircuitBreaker.create 5 30000 10000) cbFailTrace).failures = 1
    ∧ (cbRun (CircuitBreaker.create 5 30000 10000) cbFailTrace).nextAttemptTime
        = some 30001
    ∧ ((cbRun (CircuitBreaker.create 5 30000 10000) cbFailTrace).execute 30002
        (some ()) none).1 = ExecOutcome.ok () := by
  refine ⟨rfl, rfl, rfl, rfl⟩

/-! ## Rate-limiter theorems -/

/-- C3 (counterexample to the claim as stated): with `maxRequests 3,
windowMs 1000`, requests at times 0, 1, 2, 3 give three admissions and a
rejection, window end 1000.  The claim says a request at `now = 1000 >=
windowResetAt` starts a fresh window with count 1 and is admitted, but the
code resets only when `windowResetAt < now` holds strictly, so the request
at exactly 1000 increments the stale window to count 5 and is rejected. -/
theorem rateLimiter_boundary_not_reset :
    (rateRun "u:send_message" 3 1000 [0, 1, 2, 3, 1000] []).1
      = [true, true, true, false, false]
    ∧ storeGet (rateRun "u:send_message" 3 1000 [0, 1, 2, 3, 1000] []).2 "u:send_message"
      = some ⟨5, 1000⟩ := by
  constructor <;> rfl

/-- C3 (amended): the limiter starts a fresh window with count 1 and admits
when the key is absent or the window end lies strictly in the past
(`windowResetAt < now`); otherwise — including at `now = windowResetAt`
exactly — it increments and admits if and only if the new count is at most
`maxRequests`.  With `maxRequests 3, windowMs 1000`, three requests in the
window are admitted, the fourth is rejected, and a request strictly after
the window end is admitted with a fresh count of 1. -/
theorem rateLimiter_fixed_window (store : RateStore) (key : String) (now : Int)
    (maxRequests : Nat) (windowMs : Int) :
    (storeGet store key = none →
      checkRateLimit store key now maxRequests windowMs
        = (true, storeSet store key ⟨1, now + windowMs⟩))
    ∧ (∀ e, storeGet store key = some e → e.resetTime < now →
      checkRateLimit store key now maxRequests windowMs
        = (true, storeSet store key ⟨1, now + windowMs⟩))
    ∧ (∀ e, storeGet store key = some e → ¬ e.resetTime < now →
      checkRateLimit store key now maxRequests windowMs
        = (decide (e.count + 1 ≤ maxRequests),
           storeSet store key ⟨e.count + 1, e.resetTime⟩))
    ∧ (rateRun "k" 3 1000 [0, 1, 2, 3, 1001] []).1 = [true, true, true, false, true]
    ∧ storeGet (rateRun "k" 3 1000 [0, 1, 2, 3, 1001] []).2 "k" = some ⟨1, 2001⟩ := by
  refine ⟨?_, ?_, ?_, rfl, rfl⟩
  · intro h
    simp [checkRateLimit, h]
  · intro e he hlt
    simp [checkRateLimit, he, hlt]
  · intro e he hge
    simp [checkRateLimit, he, hge]

/-- C3 witness: the general characterization applied to a fresh key. -/
theorem rateLimiter_fixed_window_witness :
    storeGet ([] : RateStore) "a" = none
    ∧ checkRateLimit [] "a" 7 3 10 = (true, [("a", ⟨1, 17⟩)]) :=
  ⟨rfl, (rateLimiter_fixed_window [] "a" 7 3 10).1 rfl⟩

/-! ## Session-registry theorems -/

theorem regGet_regSet_self (m : Registry) (k v : String) :
    regGet (regSet m k v) k = some v := by
  induction m with
  | nil => simp [regSet, regGet]
  | cons p rest ih =>
    obtain ⟨k', v'⟩ := p
    by_cases h : k' = k
    · simp [regSet, h, regGet]
    · simp [regSet, h, regGet, ih]

theorem mem_keys_regSet {m : Registry} {k v x : String}
    (h : x ∈ (regSet m k v).map Prod.fst) : x ∈ m.map Prod.fst ∨ x = k := by
  induction m with
  | nil => simpa [regSet] using h
  | cons p rest ih =>
    obtain ⟨k', v'⟩ := p
    by_cases hk : k' = k
    · simp only [regSet, if_pos hk, List.map_cons, List.mem_cons] at h
      simp only [List.map_cons, List.mem_cons]
      tauto
    · simp only [regSet, if_neg hk, List.map_cons, List.mem_cons] at h
      simp only [List.map_cons, List.mem_cons]
      rcases h with h | h
      · tauto
      · rcases ih h with h1 | h1 <;> tauto

theorem regSet_keys_nodup {m : Registry} (k v : String)
    (h : (m.map Prod.fst).Nodup) : ((regSet m k v).map Prod.fst).Nodup := by
  induction m with
  | nil => simp [regSet]
  | cons p rest ih =>
    obtain ⟨k', v'⟩ := p
    simp only [List.map_cons, List.nodup_cons] at h
    by_cases hk : k' = k
    · subst hk
      simpa [regSet] using h
    · simp only [regSet, if_neg hk, List.map_cons, List.nodup_cons]
      refine ⟨fun hmem => ?_, ih h.2⟩
      rcases mem_keys_regSet hmem with h1 | h1
      · exact h.1 h1
      · exact hk h1

theorem regDeleteBySocket_sublist (m : Registry) (sid : String) :
    List.Sublist (regDeleteBySocket m sid) m := by
  induction m with
  | nil => simp [regDeleteBySocket]
  | cons p rest ih =>
    obtain ⟨k, v⟩ := p
    by_cases h : v = sid
    · simp only [regDeleteBySocket, if_pos h]
      exact List.sublist_cons_self _ _
    · simp only [regDeleteBySocket, if_neg h]
      exact ih.cons₂ _

theorem regGet_regDeleteBySocket {m : Registry} {u s1 s2 : String}
    (h : regGet m u = some s2) (hne : s1 ≠ s2) :
    regGet (regDeleteBySocket m s1) u = some s2 := by
  induction m with
  | nil => simp [regGet] at h
  | cons p rest ih =>
    obtain ⟨k, v⟩ := p
    by_cases hk : k = u
    · subst hk
      have hv2 : v = s2 := by simpa [regGet] using h
      subst hv2
      have hvs : ¬ v = s1 := fun hv => hne hv.symm
      simp [regDeleteBySocket, hvs, regGet]
    · simp only [regGet] at h
      rw [if_neg hk] at h
      by_cases hv : v = s1
      · simpa [regDeleteBySocket, hv] using h
      · simp only [regDeleteBySocket]
        rw [if_neg hv]
        simp only [regGet]
        rw [if_neg hk]
        exact ih h

theorem connStep_keys_nodup {m : Registry} (e : ConnEvent)
    (h : (m.map Prod.fst).Nodup) : ((connStep m e).map Prod.fst).Nodup := by
  cases e with
  | connect u s => exact regSet_keys_nodup u s h
  | disconnect s =>
    exact List.Nodup.sublist ((regDeleteBySocket_sublist m s).map Prod.fst) h

theorem connFold_keys_nodup (events : List ConnEvent) :
    ∀ m : Registry, (m.map Prod.fst).Nodup →
      ((events.foldl connStep m).map Prod.fst).Nodup := by
  induction events with
  | nil => intro m h; simpa using h
  | cons e rest ih =>
    intro m h
    simpa [List.foldl_cons] using ih (connStep m e) (connStep_keys_nodup e h)

/-- C5: the session registry keeps at most one entry per identity in every
reachable state (its keys are duplicate-free); registering a second
connection for an identity supersedes the first, so lookup returns the
newer handle; and a later disconnect notification carrying the superseded
handle removes only an entry holding that stale handle, never the
identity's current session. -/
theorem sessionRegistry_last_connect_wins (events : List ConnEvent)
    (m : Registry) (u s1 s2 : String) :
    ((connRun events).map Prod.fst).Nodup
    ∧ regGet (regSet m u s2) u = some s2
    ∧ (regGet m u = some s2 → s1 ≠ s2 →
        regGet (regDeleteBySocket m s1) u = some s2) := by
  exact ⟨connFold_keys_nodup events [] (by simp),
    regGet_regSet_self m u s2,
    fun h hne => regGet_regDeleteBySocket h hne⟩

/-- C5 witness: after `alice` reconnects on `sock2`, the stale disconnect
for `sock1` leaves her current session intact. -/
theorem sessionRegistry_last_connect_wins_witness :
    regGet [("alice", "sock2")] "alice" = some "sock2"
    ∧ ("sock1" : String) ≠ "sock2"
    ∧ regGet (regDeleteBySocket [("alice", "sock2")] "sock1") "alice" = some "sock2" :=
  ⟨rfl, by decide,
    (sessionRegistry_last_connect_wins [] [("alice", "sock2")] "alice" "sock1" "sock2").2.2
      rfl (by decide)⟩

/-! ## Retry theorems -/

theorem retryLoop_cons_step {α : Type} (res : Nat → Option α) (retr : Nat → Bool)
    (b m : ℚ) (jit : Nat → ℚ) (mr attempt f : Nat)
    (hr : res attempt = none)
    (hcond : ¬ (attempt = mr + 1 ∨ retr attempt = false)) :
    retryLoop res retr b m jit mr attempt (f + 1)
      = ⟨(retryLoop res retr b m jit mr (attempt + 1) f).result,
         (retryLoop res retr b m jit mr (attempt + 1) f).calls + 1,
         calculateBackoff attempt b m (jit attempt)
           :: (retryLoop res retr b m jit mr (attempt + 1) f).delays⟩ := by
  simp only [retryLoop, hr]
  rw [if_neg hcond]

theorem retryLoop_calls_le {α : Type} (res : Nat → Option α) (retr : Nat → Bool)
    (b m : ℚ) (jit : Nat → ℚ) (mr : Nat) :
    ∀ fuel attempt, (retryLoop res retr b m jit mr attempt fuel).calls ≤ fuel := by
  intro fuel
  induction fuel with
  | zero => intro attempt; simp [retryLoop]
  | succ f ih =>
    intro attempt
    cases hres : res attempt with
    | some a => simp [retryLoop, hres]
    | none =>
      by_cases hcond : attempt = mr + 1 ∨ retr attempt = false
      · simp [retryLoop, hres, hcond]
      · rw [retryLoop_cons_step res retr b m jit mr attempt f hres hcond]
        have := ih (attempt + 1)
        simp only
        omega

theorem retryLoop_first_success {α : Type} (res : Nat → Option α) (retr : Nat → Bool)
    (b m : ℚ) (jit : Nat → ℚ) (mr n : Nat) (a : α)
    (hn : n ≤ mr + 1) (hsucc : res n = some a) :
    ∀ fuel attempt, attempt + fuel = mr + 2 → attempt ≤ n →
      (∀ k, attempt ≤ k → k < n → res k = none ∧ retr k = true) →
      (retryLoop res retr b m jit mr attempt fuel).result = some a
      ∧ (retryLoop res retr b m jit mr attempt fuel).calls = n + 1 - attempt := by
  intro fuel
  induction fuel with
  | zero => intro attempt hsum hle _; omega
  | succ f ih =>
    intro attempt hsum hle hfail
    by_cases hna : attempt = n
    · subst hna
      refine ⟨by simp [retryLoop, hsucc], ?_⟩
      simp only [retryLoop, hsucc]
      omega
    · have hlt : attempt < n := lt_of_le_of_ne hle hna
      obtain ⟨hr, ht⟩ := hfail attempt le_rfl hlt
      have hne : attempt ≠ mr + 1 := by omega
      have hcond : ¬ (attempt = mr + 1 ∨ retr attempt = false) := by simp [hne, ht]
      obtain ⟨ih1, ih2⟩ := ih (attempt + 1) (by omega)
        (by omega) (fun k hk1 hk2 => hfail k (by omega) hk2)
      rw [retryLoop_cons_step res retr b m jit mr attempt f hr hcond]
      exact ⟨ih1, by simp only; omega⟩

theorem retryLoop_delays_all_fail {α : Type} (res : Nat → Option α) (retr : Nat → Bool)
    (b m : ℚ) (jit : Nat → ℚ) (mr : Nat)
    (hfail : ∀ k, 1 ≤ k → k ≤ mr → res k = none ∧ retr k = true) :
    ∀ fuel attempt, attempt + fuel = mr + 2 → 1 ≤ attempt →
      (retryLoop res retr b m jit mr attempt fuel).delays
        = (List.range (mr + 1 - attempt)).map
            (fun i => calculateBackoff (attempt + i) b m (jit (attempt + i))) := by
  intro fuel
  induction fuel with
  | zero =>
    intro attempt hsum h1
    have : mr + 1 - attempt = 0 := by omega
    simp [retryLoop, this]
  | succ f ih =>
    intro attempt hsum h1
    by_cases hlast : attempt = mr + 1
    · subst hlast
      have : mr + 1 - (mr + 1) = 0 := by omega
      rw [this]
      cases hres : res (mr + 1) with
      | some a => simp [retryLoop, hres]
      | none => simp [retryLoop, hres]
    · have hle : attempt ≤ mr := by omega
      obtain ⟨hr, ht⟩ := hfail attempt h1 hle
      have hcond : ¬ (attempt = mr + 1 ∨ retr attempt = false) := by simp [hlast, ht]
      rw [retryLoop_cons_step res retr b m jit mr attempt f hr hcond]
      simp only
      rw [ih (attempt + 1) (by omega) (by omega)]
      have hrange : mr + 1 - attempt = (mr - attempt) + 1 := by omega
      have hrange2 : mr + 1 - (attempt + 1) = mr - attempt := by omega
      rw [hrange, hrange2, List.range_succ_eq_map, List.map_cons, List.map_map]
      congr 1
      apply List.map_congr_left
      intro a _
      have harith : attempt + 1 + a = attempt + Nat.succ a := by omega
      simp only [Function.comp]
      rw [harith]

/-- C6: `retryWithBackoff` invokes the wrapped function at most
`maxRetries + 1` times and returns the value of the first successful
attempt (invoking exactly that many times); and because the breaker
wraps the whole retry sequence as a single call, a `CLOSED` breaker is
left untouched when the sequence eventually succeeds, while an exhausted
sequence rethrows and is recorded as exactly one failure
(`recordFailure` applied once). -/
theorem retry_breaker_failure_accounting {α : Type} (res : Nat → Option α)
    (retr : Nat → Bool) (b m : ℚ) (jit : Nat → ℚ) (mr : Nat)
    (cb : CircuitBreaker) (now : Int) (fb : Option α) :
    (retryWithBackoff res retr b m jit mr).calls ≤ mr + 1
    ∧ (∀ n a, 1 ≤ n → n ≤ mr + 1 →
        (∀ k, 1 ≤ k → k < n → res k = none ∧ retr k = true) → res n = some a →
        (retryWithBackoff res retr b m jit mr).result = some a
        ∧ (retryWithBackoff res retr b m jit mr).calls = n)
    ∧ (cb.state = CBState.CLOSED →
        (∀ v, (retryWithBackoff res retr b m jit mr).result = some v →
          executeWithRetry cb now res retr b m jit mr fb = (ExecOutcome.ok v, cb))
        ∧ ((retryWithBackoff res retr b m jit mr).result = none →
          executeWithRetry cb now res retr b m jit mr fb
            = (ExecOutcome.errored, cb.recordFailure now))) := by
  refine ⟨retryLoop_calls_le res retr b m jit mr (mr + 1) 1, ?_, ?_⟩
  · intro n a h1 hn hfail hsucc
    have := retryLoop_first_success res retr b m jit mr n a hn hsucc (mr + 1) 1
      (by omega) h1 (fun k hk1 hk2 => hfail k hk1 hk2)
    refine ⟨this.1, ?_⟩
    unfold retryWithBackoff
    rw [this.2]
    omega
  · intro hclosed
    have hnotOpen : ¬ cb.state = CBState.OPEN := by rw [hclosed]; simp
    constructor
    · intro v hv
      unfold executeWithRetry CircuitBreaker.execute
      rw [hv]
      simp [hnotOpen, hclosed]
    · intro hv
      unfold executeWithRetry CircuitBreaker.execute
      rw [hv]
      simp [hnotOpen]

/-- C6 witness: two retryable failures then success on the third attempt
return the success value with three invocations and leave a fresh
(`CLOSED`) breaker entirely unchanged. -/
theorem retry_breaker_failure_accounting_witness :
    ((1 : Nat) ≤ 3 ∧ (3 : Nat) ≤ 3 + 1
      ∧ (∀ k, 1 ≤ k → k < 3 →
          (fun n => if n == 3 then some 42 else (none : Option Nat)) k = none
          ∧ (fun _ : Nat => true) k = true)
      ∧ (fun n => if n == 3 then some 42 else (none : Option Nat)) 3 = some 42
      ∧ (CircuitBreaker.create 5 30000 10000).state = CBState.CLOSED)
    ∧ (retryWithBackoff (fun n => if n == 3 then some 42 else (none : Option Nat))
        (fun _ => true) 1000 2 (fun _ => 0) 3).result = some 42
    ∧ (retryWithBackoff (fun n => if n == 3 then some 42 else (none : Option Nat))
        (fun _ => true) 1000 2 (fun _ => 0) 3).calls = 3
    ∧ executeWithRetry (CircuitBreaker.create 5 30000 10000) 0
        (fun n => if n == 3 then some 42 else (none : Option Nat))
        (fun _ => true) 1000 2 (fun _ => 0) 3 none
      = (ExecOutcome.ok 42, CircuitBreaker.create 5 30000 10000) := by
  have hfail : ∀ k, 1 ≤ k → k < 3 →
      (fun n => if n == 3 then some 42 else (none : Option Nat)) k = none
      ∧ (fun _ : Nat => true) k = true := by
    intro k h1 h2
    interval_cases k <;> simp
  have hthm := retry_breaker_failure_accounting
    (fun n => if n == 3 then some 42 else (none : Option Nat))
    (fun _ => true) 1000 2 (fun _ => 0) 3 (CircuitBreaker.create 5 30000 10000) 0 none
  have hrun := hthm.2.1 3 42 (by omega) (by omega) hfail (by simp)
  exact ⟨⟨by omega, by omega, hfail, by simp, rfl⟩, hrun.1, hrun.2,
    (hthm.2.2 rfl).1 42 hrun.1⟩

/-- C9: in a run whose first `maxRetries` attempts fail retryably, the
delay slept before attempt n (n ≥ 2) is exactly
`min(baseDelay * multiplier^(n-2) + jitter, 30000)` for the jitter sampled
before that attempt — for every jitter value in `[0, 0.3 * baseDelay)` —
and it never exceeds the 30000ms cap. -/
theorem retryBackoff_delay_formula {α : Type} (res : Nat → Option α) (retr : Nat → Bool)
    (baseDelay multiplier : ℚ) (jit : Nat → ℚ) (maxRetries n : Nat)
    (hn2 : 2 ≤ n) (hn : n ≤ maxRetries + 1)
    (hfail : ∀ k, 1 ≤ k → k ≤ maxRetries → res k = none ∧ retr k = true)
    (hj0 : 0 ≤ jit (n - 1)) (hj1 : jit (n - 1) < 3 / 10 * baseDelay) :
    (retryWithBackoff res retr baseDelay multiplier jit maxRetries).delays[n - 2]?
      = some (min (baseDelay * multiplier ^ (n - 2) + jit (n - 1)) 30000)
    ∧ min (baseDelay * multiplier ^ (n - 2) + jit (n - 1)) 30000 ≤ 30000 := by
  refine ⟨?_, min_le_right _ _⟩
  have hdelays := retryLoop_delays_all_fail res retr baseDelay multiplier jit maxRetries
    hfail (maxRetries + 1) 1 (by omega) le_rfl
  unfold retryWithBackoff
  rw [hdelays]
  rw [List.getElem?_map, List.getElem?_range (by omega : n - 2 < maxRetries + 1 - 1)]
  have h1 : 1 + (n - 2) = n - 1 := by omega
  have h2 : n - 1 - 1 = n - 2 := by omega
  rw [Option.map_some']
  unfold calculateBackoff
  rw [h1, h2]

/-- C9 witness: with `baseDelay 1000, multiplier 2` and jitter 100 before
attempt 3, the delay before the third attempt is
`min(1000 * 2 + 100, 30000) = 2100`. -/
theorem retryBackoff_delay_formula_witness :
    ((2 : Nat) ≤ 3 ∧ (3 : Nat) ≤ 3 + 1
      ∧ (∀ k, 1 ≤ k → k ≤ 3 →
          (fun _ : Nat => (none : Option Unit)) k = none ∧ (fun _ : Nat => true) k = true)
      ∧ (0 : ℚ) ≤ 100 ∧ (100 : ℚ) < 3 / 10 * 1000)
    ∧ (retryWithBackoff (fun _ => (none : Option Unit)) (fun _ => true)
        1000 2 (fun _ => 100) 3).delays[1]?
      = some (min ((1000 : ℚ) * 2 ^ 1 + 100) 30000) := by
  have hfail : ∀ k, 1 ≤ k → k ≤ 3 →
      (fun _ : Nat => (none : Option Unit)) k = none ∧ (fun _ : Nat => true) k = true :=
    fun k h1 h2 => ⟨rfl, rfl⟩
  have hthm := retryBackoff_delay_formula (fun _ => (none : Option Unit)) (fun _ => true)
    1000 2 (fun _ => 100) 3 3 (by omega) (by omega) hfail (by norm_num) (by norm_num)
  exact ⟨⟨by omega, by omega, hfail, by norm_num, by norm_num⟩, hthm.1⟩

/-! ## Validation theorems -/

theorem senderIdErrors_eq_nil (m : MessagePayload) :
    senderIdErrors m = [] ↔ specSenderOk m = true := by
  unfold senderIdErrors specSenderOk
  cases h : jsTruthy m.sender_id <;> simp [h]
  split_ifs with h2 h3 <;> simp_all <;> omega

theorem targetErrors_eq_nil (m : MessagePayload) :
    targetErrors m = [] ↔ specTargetOk m = true := by
  unfold targetErrors specTargetOk
  cases hr : jsTruthy m.receiver_id <;> cases hg : jsTruthy m.group_id <;>
    simp [hr, hg] <;> split_ifs <;> simp_all <;> omega

theorem contentErrors_eq_nil (m : MessagePayload) :
    contentErrors m = [] ↔ specContentOk m = true := by
  unfold contentErrors specContentOk
  cases h : jsTruthy m.content <;> simp [h]
  split_ifs with h2 h3 <;> simp_all <;> omega

theorem typeErrors_eq_nil (m : MessagePayload) :
    typeErrors m = [] ↔ specTypeOk m = true := by
  unfold typeErrors specTypeOk
  cases h : jsTruthy m.message_type <;>
    cases hc : ["text", "image", "file", "video"].contains (m.message_type.getD "") <;>
    simp [h, hc]

theorem expiryErrors_eq_nil (m : MessagePayload) (pd : String → Option Int) (now : Int) :
    expiryErrors m pd now = [] ↔ specExpiryOk m pd now = true := by
  unfold expiryErrors specExpiryOk
  cases hea : m.expires_at with
  | none => simp [jsTruthy]
  | some s =>
    by_cases hs : s = ""
    · simp [hs, jsTruthy]
    · have hbeq : (s == "") = false := by simpa using hs
      simp only [jsTruthy, hbeq, Bool.not_false, Bool.true_or, Option.getD_some]
      cases hp : pd s with
      | none => simp [hbeq]
      | some t =>
        by_cases h1 : t ≤ now
        · simp [h1, show ¬ now < t by omega]
        · by_cases h2 : t - now > MAX_MESSAGE_EXPIRY_MS
          · simp [h1, h2, show ¬ (t - now ≤ MAX_MESSAGE_EXPIRY_MS) by omega]
          · simp [h1, h2, show now < t by omega, show t - now ≤ MAX_MESSAGE_EXPIRY_MS by omega]

theorem validateMessage_eq_nil (m : MessagePayload) (pd : String → Option Int) (now : Int) :
    validateMessage m pd now = []
      ↔ (specSenderOk m = true ∧ specTargetOk m = true ∧ specContentOk m = true
          ∧ specTypeOk m = true ∧ specExpiryOk m pd now = true) := by
  unfold validateMessage
  simp [List.append_eq_nil, senderIdErrors_eq_nil, targetErrors_eq_nil,
    contentErrors_eq_nil, typeErrors_eq_nil, expiryErrors_eq_nil]

theorem senderIdErrors_subset (m : MessagePayload) :
    ∀ x ∈ senderIdErrors m,
      x ∈ ["sender_id is required", "sender_id must be a non-empty string",
           "sender_id must be less than " ++ toString MAX_USER_ID_LENGTH ++ " characters"] := by
  intro x hx
  simp only [senderIdErrors] at hx
  split_ifs at hx <;> simp at hx <;> simp [hx]

theorem targetErrors_subset (m : MessagePayload) :
    ∀ x ∈ targetErrors m,
      x ∈ ["Either receiver_id or group_id is required",
           "receiver_id must be a string less than " ++ toString MAX_RECEIVER_ID_LENGTH
             ++ " characters",
           "group_id must be a string less than " ++ toString MAX_GROUP_ID_LENGTH
             ++ " characters"] := by
  intro x hx
  simp only [targetErrors, List.mem_append] at hx
  rcases hx with (hx | hx) | hx <;> split_ifs at hx <;> simp at hx <;> simp [hx]

theorem contentErrors_subset (m : MessagePayload) :
    ∀ x ∈ contentErrors m,
      x ∈ ["content is required", "content cannot be empty",
           "content must be less than " ++ toString MAX_MESSAGE_LENGTH ++ " characters"] := by
  intro x hx
  simp only [contentErrors] at hx
  split_ifs at hx <;> simp at hx <;> simp [hx]

theorem typeErrors_subset (m : MessagePayload) :
    ∀ x ∈ typeErrors m,
      x ∈ ["message_type must be one of: text, image, file, video"] := by
  intro x hx
  simp only [typeErrors] at hx
  split_ifs at hx <;> simp at hx <;> simp [hx]

theorem expiryErrors_subset (m : MessagePayload) (pd : String → Option Int) (now : Int) :
    ∀ x ∈ expiryErrors m pd now,
      x ∈ ["expires_at must be a valid ISO timestamp", "expires_at must be in the future",
           "expires_at cannot be more than " ++ toString MAX_MESSAGE_EXPIRY_HOURS
             ++ " hours in the future"] := by
  intro x hx
  simp only [expiryErrors] at hx
  rcases hea : m.expires_at with _ | s <;> rw [hea] at hx
  · simp at hx
  · dsimp only at hx
    split_ifs at hx
    · simp at hx
    · rcases hp : pd s with _ | t <;> rw [hp] at hx <;> dsimp only at hx
      · simp at hx
        simp [hx]
      · split_ifs at hx <;> simp at hx <;> simp [hx]

theorem notMem_senderIdErrors (m : MessagePayload) (x : String)
    (hx : x ∉ ["sender_id is required", "sender_id must be a non-empty string",
      "sender_id must be less than " ++ toString MAX_USER_ID_LENGTH ++ " characters"]) :
    x ∉ senderIdErrors m :=
  fun h => hx (senderIdErrors_subset m x h)

theorem notMem_targetErrors (m : MessagePayload) (x : String)
    (hx : x ∉ ["Either receiver_id or group_id is required",
      "receiver_id must be a string less than " ++ toString MAX_RECEIVER_ID_LENGTH
        ++ " characters",
      "group_id must be a string less than " ++ toString MAX_GROUP_ID_LENGTH
        ++ " characters"]) :
    x ∉ targetErrors m :=
  fun h => hx (targetErrors_subset m x h)

theorem notMem_contentErrors (m : MessagePayload) (x : String)
    (hx : x ∉ ["content is required", "content cannot be empty",
      "content must be less than " ++ toString MAX_MESSAGE_LENGTH ++ " characters"]) :
    x ∉ contentErrors m :=
  fun h => hx (contentErrors_subset m x h)

theorem notMem_typeErrors (m : MessagePayload) (x : String)
    (hx : x ∉ ["message_type must be one of: text, image, file, video"]) :
    x ∉ typeErrors m :=
  fun h => hx (typeErrors_subset m x h)

theorem notMem_expiryErrors (m : MessagePayload) (pd : String → Option Int) (now : Int)
    (x : String)
    (hx : x ∉ ["expires_at must be a valid ISO timestamp", "expires_at must be in the future",
      "expires_at cannot be more than " ++ toString MAX_MESSAGE_EXPIRY_HOURS
        ++ " hours in the future"]) :
    x ∉ expiryErrors m pd now :=
  fun h => hx (expiryErrors_subset m pd now x h)

theorem senderRequired_mem (m : MessagePayload) :
    "sender_id is required" ∈ senderIdErrors m ↔ jsTruthy m.sender_id = false := by
  have n2 : ¬ "sender_id is required" = "sender_id must be a non-empty string" := by decide
  have n3 : ¬ "sender_id is required"
      = "sender_id must be less than " ++ toString MAX_USER_ID_LENGTH ++ " characters" := by
    decide
  simp only [senderIdErrors]
  cases h : jsTruthy m.sender_id <;> simp [h]
  split_ifs <;> simp [n2, n3]

theorem senderBlank_mem (m : MessagePayload) :
    "sender_id must be a non-empty string" ∈ senderIdErrors m
      ↔ (jsTruthy m.sender_id = true ∧ (jsTrim (m.sender_id.getD "")).length = 0) := by
  have n1 : ¬ "sender_id must be a non-empty string" = "sender_id is required" := by decide
  have n3 : ¬ "sender_id must be a non-empty string"
      = "sender_id must be less than " ++ toString MAX_USER_ID_LENGTH ++ " characters" := by
    decide
  simp only [senderIdErrors]
  cases h : jsTruthy m.sender_id <;> simp [h, n1]
  split_ifs with h2 h3 <;> simp_all [n3]

theorem senderLong_mem (m : MessagePayload) :
    ("sender_id must be less than " ++ toString MAX_USER_ID_LENGTH ++ " characters")
        ∈ senderIdErrors m
      ↔ (jsTruthy m.sender_id = true ∧ ¬ (jsTrim (m.sender_id.getD "")).length = 0
          ∧ MAX_USER_ID_LENGTH < (m.sender_id.getD "").length) := by
  have n1 : ¬ ("sender_id must be less than " ++ toString MAX_USER_ID_LENGTH
      ++ " characters") = "sender_id is required" := by decide
  have n2 : ¬ ("sender_id must be less than " ++ toString MAX_USER_ID_LENGTH
      ++ " characters") = "sender_id must be a non-empty string" := by decide
  simp only [senderIdErrors]
  cases h : jsTruthy m.sender_id <;> simp [h, n1]
  split_ifs with h2 h3 <;> simp_all [n2]

theorem targetRequired_mem (m : MessagePayload) :
    "Either receiver_id or group_id is required" ∈ targetErrors m
      ↔ (jsTruthy m.receiver_id = false ∧ jsTruthy m.group_id = false) := by
  have n2 : ¬ "Either receiver_id or group_id is required"
      = "receiver_id must be a string less than " ++ toString MAX_RECEIVER_ID_LENGTH
        ++ " characters" := by decide
  have n3 : ¬ "Either receiver_id or group_id is required"
      = "group_id must be a string less than " ++ toString MAX_GROUP_ID_LENGTH
        ++ " characters" := by decide
  simp only [targetErrors, List.mem_append]
  cases hr : jsTruthy m.receiver_id <;> cases hg : jsTruthy m.group_id <;>
    simp [hr, hg, n2, n3] <;> split_ifs <;> simp [n2, n3]

theorem receiverLong_mem (m : MessagePayload) :
    ("receiver_id must be a string less than " ++ toString MAX_RECEIVER_ID_LENGTH
        ++ " characters") ∈ targetErrors m
      ↔ (jsTruthy m.receiver_id = true
          ∧ MAX_RECEIVER_ID_LENGTH < (m.receiver_id.getD "").length) := by
  have n1 : ¬ ("receiver_id must be a string less than " ++ toString MAX_RECEIVER_ID_LENGTH
      ++ " characters") = "Either receiver_id or group_id is required" := by decide
  have n3 : ¬ ("receiver_id must be a string less than " ++ toString MAX_RECEIVER_ID_LENGTH
      ++ " characters") = "group_id must be a string less than "
        ++ toString MAX_GROUP_ID_LENGTH ++ " characters" := by decide
  simp only [targetErrors, List.mem_append]
  split_ifs with h1 h2 h3 <;> simp_all [n1, n3]

theorem groupLong_mem (m : MessagePayload) :
    ("group_id must be a string less than " ++ toString MAX_GROUP_ID_LENGTH
        ++ " characters") ∈ targetErrors m
      ↔ (jsTruthy m.group_id = true
          ∧ MAX_GROUP_ID_LENGTH < (m.group_id.getD "").length) := by
  have n1 : ¬ ("group_id must be a string less than " ++ toString MAX_GROUP_ID_LENGTH
      ++ " characters") = "Either receiver_id or group_id is required" := by decide
  have n2 : ¬ ("group_id must be a string less than " ++ toString MAX_GROUP_ID_LENGTH
      ++ " characters") = "receiver_id must be a string less than "
        ++ toString MAX_RECEIVER_ID_LENGTH ++ " characters" := by decide
  simp only [targetErrors, List.mem_append]
  split_ifs with h1 h2 h3 <;> simp_all [n1, n2]

theorem contentRequired_mem (m : MessagePayload) :
    "content is required" ∈ contentErrors m ↔ jsTruthy m.content = false := by
  have n2 : ¬ "content is required" = "content cannot be empty" := by decide
  have n3 : ¬ "content is required"
      = "content must be less than " ++ toString MAX_MESSAGE_LENGTH ++ " characters" := by
    decide
  simp only [contentErrors]
  cases h : jsTruthy m.content <;> simp [h]
  split_ifs <;> simp [n2, n3]

theorem contentBlank_mem (m : MessagePayload) :
    "content cannot be empty" ∈ contentErrors m
      ↔ (jsTruthy m.content = true ∧ (jsTrim (m.content.getD "")).length = 0) := by
  have n1 : ¬ "content cannot be empty" = "content is required" := by decide
  have n3 : ¬ "content cannot be empty"
      = "content must be less than " ++ toString MAX_MESSAGE_LENGTH ++ " characters" := by
    decide
  simp only [contentErrors]
  cases h : jsTruthy m.content <;> simp [h, n1]
  split_ifs with h2 h3 <;> simp_all [n3]

theorem contentLong_mem (m : MessagePayload) :
    ("content must be less than " ++ toString MAX_MESSAGE_LENGTH ++ " characters")
        ∈ contentErrors m
      ↔ (jsTruthy m.content = true ∧ ¬ (jsTrim (m.content.getD "")).length = 0
          ∧ MAX_MESSAGE_LENGTH < (m.content.getD "").length) := by
  have n1 : ¬ ("content must be less than " ++ toString MAX_MESSAGE_LENGTH
      ++ " characters") = "content is required" := by decide
  have n2 : ¬ ("content must be less than " ++ toString MAX_MESSAGE_LENGTH
      ++ " characters") = "content cannot be empty" := by decide
  simp only [contentErrors]
  cases h : jsTruthy m.content <;> simp [h, n1]
  split_ifs with h2 h3 <;> simp_all [n2]

theorem typeEnum_mem (m : MessagePayload) :
    "message_type must be one of: text, image, file, video" ∈ typeErrors m
      ↔ (jsTruthy m.message_type = true
          ∧ (["text", "image", "file", "video"].contains (m.message_type.getD ""))
              = false) := by
  simp only [typeErrors]
  split_ifs with h <;> simp_all

theorem expiryParse_mem (m : MessagePayload) (pd : String → Option Int) (now : Int) :
    "expires_at must be a valid ISO timestamp" ∈ expiryErrors m pd now
      ↔ (jsTruthy m.expires_at = true ∧ pd (m.expires_at.getD "") = none) := by
  have n2 : ¬ "expires_at must be a valid ISO timestamp"
      = "expires_at must be in the future" := by decide
  have n3 : ¬ "expires_at must be a valid ISO timestamp"
      = "expires_at cannot be more than " ++ toString MAX_MESSAGE_EXPIRY_HOURS
        ++ " hours in the future" := by decide
  simp only [expiryErrors]
  cases hea : m.expires_at with
  | none => simp [jsTruthy]
  | some s =>
    dsimp only
    by_cases hs : (s == "") = true
    · have hs0 : s = "" := by simpa using hs
      simp [hs, jsTruthy, hs0]
    · have hs0 : (s == "") = false := by simpa using hs
      rw [if_neg hs]
      cases hp : pd s with
      | none => simp [jsTruthy, hs0, hp]
      | some t =>
        dsimp only
        split_ifs with h1 h2 <;> simp [jsTruthy, hs0, hp, n2, n3]

theorem expiryFuture_mem (m : MessagePayload) (pd : String → Option Int) (now : Int) :
    "expires_at must be in the future" ∈ expiryErrors m pd now
      ↔ (jsTruthy m.expires_at = true
          ∧ ∃ t, pd (m.expires_at.getD "") = some t ∧ t ≤ now) := by
  have n1 : ¬ "expires_at must be in the future"
      = "expires_at must be a valid ISO timestamp" := by decide
  have n3 : ¬ "expires_at must be in the future"
      = "expires_at cannot be more than " ++ toString MAX_MESSAGE_EXPIRY_HOURS
        ++ " hours in the future" := by decide
  simp only [expiryErrors]
  cases hea : m.expires_at with
  | none => simp [jsTruthy]
  | some s =>
    dsimp only
    by_cases hs : (s == "") = true
    · have hs0 : s = "" := by simpa using hs
      simp [hs, jsTruthy, hs0]
    · have hs0 : (s == "") = false := by simpa using hs
      rw [if_neg hs]
      cases hp : pd s with
      | none => simp [jsTruthy, hs0, hp, n1]
      | some t =>
        dsimp only
        split_ifs with h1 h2 <;> simp [jsTruthy, hs0, hp, n3, h1]

theorem expiryHorizon_mem (m : MessagePayload) (pd : String → Option Int) (now : Int) :
    ("expires_at cannot be more than " ++ toString MAX_MESSAGE_EXPIRY_HOURS
        ++ " hours in the future") ∈ expiryErrors m pd now
      ↔ (jsTruthy m.expires_at = true
          ∧ ∃ t, pd (m.expires_at.getD "") = some t ∧ now < t
              ∧ MAX_MESSAGE_EXPIRY_MS < t - now) := by
  have n1 : ¬ ("expires_at cannot be more than " ++ toString MAX_MESSAGE_EXPIRY_HOURS
      ++ " hours in the future") = "expires_at must be a valid ISO timestamp" := by decide
  have n2 : ¬ ("expires_at cannot be more than " ++ toString MAX_MESSAGE_EXPIRY_HOURS
      ++ " hours in the future") = "expires_at must be in the future" := by decide
  simp only [expiryErrors]
  cases hea : m.expires_at with
  | none => simp [jsTruthy]
  | some s =>
    dsimp only
    by_cases hs : (s == "") = true
    · have hs0 : s = "" := by simpa using hs
      simp [hs, jsTruthy, hs0]
    · have hs0 : (s == "") = false := by simpa using hs
      rw [if_neg hs]
      cases hp : pd s with
      | none => simp [jsTruthy, hs0, hp, n1]
      | some t =>
        dsimp only
        split_ifs with h1 h2
        · simp [jsTruthy, hs0, hp, n2, show ¬ now < t by omega]
        · simp [jsTruthy, hs0, hp, h2, show now < t by omega]
        · simp [jsTruthy, hs0, hp, show ¬ MAX_MESSAGE_EXPIRY_MS < t - now by omega,
            show now < t by omega]

theorem senderRequired_listed (m : MessagePayload) (pd : String → Option Int) (now : Int) :
    "sender_id is required" ∈ validateMessage m pd now ↔ jsTruthy m.sender_id = false := by
  have h2 := notMem_targetErrors m "sender_id is required" (by decide)
  have h3 := notMem_contentErrors m "sender_id is required" (by decide)
  have h4 := notMem_typeErrors m "sender_id is required" (by decide)
  have h5 := notMem_expiryErrors m pd now "sender_id is required" (by decide)
  simp [validateMessage, List.mem_append, h2, h3, h4, h5, senderRequired_mem]

theorem senderBlank_listed (m : MessagePayload) (pd : String → Option Int) (now : Int) :
    "sender_id must be a non-empty string" ∈ validateMessage m pd now
      ↔ (jsTruthy m.sender_id = true ∧ (jsTrim (m.sender_id.getD "")).length = 0) := by
  have h2 := notMem_targetErrors m "sender_id must be a non-empty string" (by decide)
  have h3 := notMem_contentErrors m "sender_id must be a non-empty string" (by decide)
  have h4 := notMem_typeErrors m "sender_id must be a non-empty string" (by decide)
  have h5 := notMem_expiryErrors m pd now "sender_id must be a non-empty string" (by decide)
  simp [validateMessage, List.mem_append, h2, h3, h4, h5, senderBlank_mem]

theorem senderLong_listed (m : MessagePayload) (pd : String → Option Int) (now : Int) :
    ("sender_id must be less than " ++ toString MAX_USER_ID_LENGTH ++ " characters")
        ∈ validateMessage m pd now
      ↔ (jsTruthy m.sender_id = true ∧ ¬ (jsTrim (m.sender_id.getD "")).length = 0
          ∧ MAX_USER_ID_LENGTH < (m.sender_id.getD "").length) := by
  have h2 := notMem_targetErrors m
    ("sender_id must be less than " ++ toString MAX_USER_ID_LENGTH ++ " characters")
    (by decide)
  have h3 := notMem_contentErrors m
    ("sender_id must be less than " ++ toString MAX_USER_ID_LENGTH ++ " characters")
    (by decide)
  have h4 := notMem_typeErrors m
    ("sender_id must be less than " ++ toString MAX_USER_ID_LENGTH ++ " characters")
    (by decide)
  have h5 := notMem_expiryErrors m pd now
    ("sender_id must be less than " ++ toString MAX_USER_ID_LENGTH ++ " characters")
    (by decide)
  simp [validateMessage, List.mem_append, h2, h3, h4, h5, senderLong_mem]

theorem targetRequired_listed (m : MessagePayload) (pd : String → Option Int) (now : Int) :
    "Either receiver_id or group_id is required" ∈ validateMessage m pd now
      ↔ (jsTruthy m.receiver_id = false ∧ jsTruthy m.group_id = false) := by
  have h1 := notMem_senderIdErrors m "Either receiver_id or group_id is required" (by decide)
  have h3 := notMem_contentErrors m "Either receiver_id or group_id is required" (by decide)
  have h4 := notMem_typeErrors m "Either receiver_id or group_id is required" (by decide)
  have h5 := notMem_expiryErrors m pd now "Either receiver_id or group_id is required"
    (by decide)
  simp [validateMessage, List.mem_append, h1, h3, h4, h5, targetRequired_mem]

theorem receiverLong_listed (m : MessagePayload) (pd : String → Option Int) (now : Int) :
    ("receiver_id must be a string less than " ++ toString MAX_RECEIVER_ID_LENGTH
        ++ " characters") ∈ validateMessage m pd now
      ↔ (jsTruthy m.receiver_id = true
          ∧ MAX_RECEIVER_ID_LENGTH < (m.receiver_id.getD "").length) := by
  have h1 := notMem_senderIdErrors m
    ("receiver_id must be a string less than " ++ toString MAX_RECEIVER_ID_LENGTH
      ++ " characters") (by decide)
  have h3 := notMem_contentErrors m
    ("receiver_id must be a string less than " ++ toString MAX_RECEIVER_ID_LENGTH
      ++ " characters") (by decide)
  have h4 := notMem_typeErrors m
    ("receiver_id must be a string less than " ++ toString MAX_RECEIVER_ID_LENGTH
      ++ " characters") (by decide)
  have h5 := notMem_expiryErrors m pd now
    ("receiver_id must be a string less than " ++ toString MAX_RECEIVER_ID_LENGTH
      ++ " characters") (by decide)
  simp [validateMessage, List.mem_append, h1, h3, h4, h5, receiverLong_mem]

theorem groupLong_listed (m : MessagePayload) (pd : String → Option Int) (now : Int) :
    ("group_id must be a string less than " ++ toString MAX_GROUP_ID_LENGTH
        ++ " characters") ∈ validateMessage m pd now
      ↔ (jsTruthy m.group_id = true
          ∧ MAX_GROUP_ID_LENGTH < (m.group_id.getD "").length) := by
  have h1 := notMem_senderIdErrors m
    ("group_id must be a string less than " ++ toString MAX_GROUP_ID_LENGTH
      ++ " characters") (by decide)
  have h3 := notMem_contentErrors m
    ("group_id must be a string less than " ++ toString MAX_GROUP_ID_LENGTH
      ++ " characters") (by decide)
  have h4 := notMem_typeErrors m
    ("group_id must be a string less than " ++ toString MAX_GROUP_ID_LENGTH
      ++ " characters") (by decide)
  have h5 := notMem_expiryErrors m pd now
    ("group_id must be a string less than " ++ toString MAX_GROUP_ID_LENGTH
      ++ " characters") (by decide)
  simp [validateMessage, List.mem_append, h1, h3, h4, h5, groupLong_mem]

theorem contentRequired_listed (m : MessagePayload) (pd : String → Option Int) (now : Int) :
    "content is required" ∈ validateMessage m pd now ↔ jsTruthy m.content = false := by
  have h1 := notMem_senderIdErrors m "content is required" (by decide)
  have h2 := notMem_targetErrors m "content is required" (by decide)
  have h4 := notMem_typeErrors m "content is required" (by decide)
  have h5 := notMem_expiryErrors m pd now "content is required" (by decide)
  simp [validateMessage, List.mem_append, h1, h2, h4, h5, contentRequired_mem]

theorem contentBlank_listed (m : MessagePayload) (pd : String → Option Int) (now : Int) :
    "content cannot be empty" ∈ validateMessage m pd now
      ↔ (jsTruthy m.content = true ∧ (jsTrim (m.content.getD "")).length = 0) := by
  have h1 := notMem_senderIdErrors m "content cannot be empty" (by decide)
  have h2 := notMem_targetErrors m "content cannot be empty" (by decide)
  have h4 := notMem_typeErrors m "content cannot be empty" (by decide)
  have h5 := notMem_expiryErrors m pd now "content cannot be empty" (by decide)
  simp [validateMessage, List.mem_append, h1, h2, h4, h5, contentBlank_mem]

theorem contentLong_listed (m : MessagePayload) (pd : String → Option Int) (now : Int) :
    ("content must be less than " ++ toString MAX_MESSAGE_LENGTH ++ " characters")
        ∈ validateMessage m pd now
      ↔ (jsTruthy m.content = true ∧ ¬ (jsTrim (m.content.getD "")).length = 0
          ∧ MAX_MESSAGE_LENGTH < (m.content.getD "").length) := by
  have h1 := notMem_senderIdErrors m
    ("content must be less than " ++ toString MAX_MESSAGE_LENGTH ++ " characters")
    (by decide)
  have h2 := notMem_targetErrors m
    ("content must be less than " ++ toString MAX_MESSAGE_LENGTH ++ " characters")
    (by decide)
  have h4 := notMem_typeErrors m
    ("content must be less than " ++ toString MAX_MESSAGE_LENGTH ++ " characters")
    (by decide)
  have h5 := notMem_expiryErrors m pd now
    ("content must be less than " ++ toString MAX_MESSAGE_LENGTH ++ " characters")
    (by decide)
  simp [validateMessage, List.mem_append, h1, h2, h4, h5, contentLong_mem]

theorem typeEnum_listed (m : MessagePayload) (pd : String → Option Int) (now : Int) :
    "message_type must be one of: text, image, file, video" ∈ validateMessage m pd now
      ↔ (jsTruthy m.message_type = true
          ∧ (["text", "image", "file", "video"].contains (m.message_type.getD ""))
              = false) := by
  have h1 := notMem_senderIdErrors m
    "message_type must be one of: text, image, file, video" (by decide)
  have h2 := notMem_targetErrors m
    "message_type must be one of: text, image, file, video" (by decide)
  have h3 := notMem_contentErrors m
    "message_type must be one of: text, image, file, video" (by decide)
  have h5 := notMem_expiryErrors m pd now
    "message_type must be one of: text, image, file, video" (by decide)
  simp [validateMessage, List.mem_append, h1, h2, h3, h5, typeEnum_mem]

theorem expiryParse_listed (m : MessagePayload) (pd : String → Option Int) (now : Int) :
    "expires_at must be a valid ISO timestamp" ∈ validateMessage m pd now
      ↔ (jsTruthy m.expires_at = true ∧ pd (m.expires_at.getD "") = none) := by
  have h1 := notMem_senderIdErrors m "expires_at must be a valid ISO timestamp" (by decide)
  have h2 := notMem_targetErrors m "expires_at must be a valid ISO timestamp" (by decide)
  have h3 := notMem_contentErrors m "expires_at must be a valid ISO timestamp" (by decide)
  have h4 := notMem_typeErrors m "expires_at must be a valid ISO timestamp" (by decide)
  simp [validateMessage, List.mem_append, h1, h2, h3, h4, expiryParse_mem]

theorem expiryFuture_listed (m : MessagePayload) (pd : String → Option Int) (now : Int) :
    "expires_at must be in the future" ∈ validateMessage m pd now
      ↔ (jsTruthy m.expires_at = true
          ∧ ∃ t, pd (m.expires_at.getD "") = some t ∧ t ≤ now) := by
  have h1 := notMem_senderIdErrors m "expires_at must be in the future" (by decide)
  have h2 := notMem_targetErrors m "expires_at must be in the future" (by decide)
  have h3 := notMem_contentErrors m "expires_at must be in the future" (by decide)
  have h4 := notMem_typeErrors m "expires_at must be in the future" (by decide)
  simp [validateMessage, List.mem_append, h1, h2, h3, h4, expiryFuture_mem]

theorem expiryHorizon_listed (m : MessagePayload) (pd : String → Option Int) (now : Int) :
    ("expires_at cannot be more than " ++ toString MAX_MESSAGE_EXPIRY_HOURS
        ++ " hours in the future") ∈ validateMessage m pd now
      ↔ (jsTruthy m.expires_at = true
          ∧ ∃ t, pd (m.expires_at.getD "") = some t ∧ now < t
              ∧ MAX_MESSAGE_EXPIRY_MS < t - now) := by
  have h1 := notMem_senderIdErrors m
    ("expires_at cannot be more than " ++ toString MAX_MESSAGE_EXPIRY_HOURS
      ++ " hours in the future") (by decide)
  have h2 := notMem_targetErrors m
    ("expires_at cannot be more than " ++ toString MAX_MESSAGE_EXPIRY_HOURS
      ++ " hours in the future") (by decide)
  have h3 := notMem_contentErrors m
    ("expires_at cannot be more than " ++ toString MAX_MESSAGE_EXPIRY_HOURS
      ++ " hours in the future") (by decide)
  have h4 := notMem_typeErrors m
    ("expires_at cannot be more than " ++ toString MAX_MESSAGE_EXPIRY_HOURS
      ++ " hours in the future") (by decide)
  simp [validateMessage, List.mem_append, h1, h2, h3, h4, expiryHorizon_mem]

/-- C4 (as amended): `validateMessage` accepts a payload exactly when every
per-field check holds — the rule conjunction with an at-least-one-target
rule — and its error list enumerates every violated rule, not just the
first: each of the thirteen error messages the validator can emit (the
three sender checks, the missing-target and two target-length checks, the
three content checks, the message-type check, and the three expiry checks)
appears in the list if and only if its own condition is violated,
independently of any other violation.  And on rejection no further
pipeline work is performed: the handler emits the validation error and
returns with the breaker untouched — nothing is saved, routed or armed. -/
theorem validateMessage_rules (m : MessagePayload) (pd : String → Option Int) (now : Int) :
    (validateMessage m pd now = []
      ↔ (specSenderOk m = true ∧ specTargetOk m = true ∧ specContentOk m = true
          ∧ specTypeOk m = true ∧ specExpiryOk m pd now = true))
    ∧ ("sender_id is required" ∈ validateMessage m pd now ↔ jsTruthy m.sender_id = false)
    ∧ ("sender_id must be a non-empty string" ∈ validateMessage m pd now
        ↔ (jsTruthy m.sender_id = true ∧ (jsTrim (m.sender_id.getD "")).length = 0))
    ∧ (("sender_id must be less than " ++ toString MAX_USER_ID_LENGTH ++ " characters")
          ∈ validateMessage m pd now
        ↔ (jsTruthy m.sender_id = true ∧ ¬ (jsTrim (m.sender_id.getD "")).length = 0
            ∧ MAX_USER_ID_LENGTH < (m.sender_id.getD "").length))
    ∧ ("Either receiver_id or group_id is required" ∈ validateMessage m pd now
        ↔ (jsTruthy m.receiver_id = false ∧ jsTruthy m.group_id = false))
    ∧ (("receiver_id must be a string less than " ++ toString MAX_RECEIVER_ID_LENGTH
          ++ " characters") ∈ validateMessage m pd now
        ↔ (jsTruthy m.receiver_id = true
            ∧ MAX_RECEIVER_ID_LENGTH < (m.receiver_id.getD "").length))
    ∧ (("group_id must be a string less than " ++ toString MAX_GROUP_ID_LENGTH
          ++ " characters") ∈ validateMessage m pd now
        ↔ (jsTruthy m.group_id = true
            ∧ MAX_GROUP_ID_LENGTH < (m.group_id.getD "").length))
    ∧ ("content is required" ∈ validateMessage m pd now ↔ jsTruthy m.content = false)
    ∧ ("content cannot be empty" ∈ validateMessage m pd now
        ↔ (jsTruthy m.content = true ∧ (jsTrim (m.content.getD "")).length = 0))
    ∧ (("content must be less than " ++ toString MAX_MESSAGE_LENGTH ++ " characters")
          ∈ validateMessage m pd now
        ↔ (jsTruthy m.content = true ∧ ¬ (jsTrim (m.content.getD "")).length = 0
            ∧ MAX_MESSAGE_LENGTH < (m.content.getD "").length))
    ∧ ("message_type must be one of: text, image, file, video" ∈ validateMessage m pd now
        ↔ (jsTruthy m.message_type = true
            ∧ (["text", "image", "file", "video"].contains (m.message_type.getD ""))
                = false))
    ∧ ("expires_at must be a valid ISO timestamp" ∈ validateMessage m pd now
        ↔ (jsTruthy m.expires_at = true ∧ pd (m.expires_at.getD "") = none))
    ∧ ("expires_at must be in the future" ∈ validateMessage m pd now
        ↔ (jsTruthy m.expires_at = true
            ∧ ∃ t, pd (m.expires_at.getD "") = some t ∧ t ≤ now))
    ∧ (("expires_at cannot be more than " ++ toString MAX_MESSAGE_EXPIRY_HOURS
          ++ " hours in the future") ∈ validateMessage m pd now
        ↔ (jsTruthy m.expires_at = true
            ∧ ∃ t, pd (m.expires_at.getD "") = some t ∧ now < t
                ∧ MAX_MESSAGE_EXPIRY_MS < t - now))
    ∧ (∀ (data : MessagePayload) (socketUserId : String) (rsid : Option String)
          (cb : CircuitBreaker) (attempts : Nat → Option MessageRecord)
          (retr : Nat → Bool) (jit : Nat → ℚ),
        ¬ validateMessage (normalizedPayload data) pd now = [] →
        sendMessageHandler data socketUserId rsid true cb now pd attempts retr jit
          = (SendOutcome.invalid (validateMessage (normalizedPayload data) pd now), cb)) := by
  refine ⟨validateMessage_eq_nil m pd now, senderRequired_listed m pd now,
    senderBlank_listed m pd now, senderLong_listed m pd now, targetRequired_listed m pd now,
    receiverLong_listed m pd now, groupLong_listed m pd now, contentRequired_listed m pd now,
    contentBlank_listed m pd now, contentLong_listed m pd now, typeEnum_listed m pd now,
    expiryParse_listed m pd now, expiryFuture_listed m pd now, expiryHorizon_listed m pd now,
    ?_⟩
  intro data socketUserId rsid cb attempts retr jit hv
  have hb : (validateMessage (normalizedPayload data) pd now == []) = false := by
    simpa using hv
  simp [sendMessageHandler, hb]

/-- C4 witness: a payload with no content is rejected, the handler stops
with the validation error, and the content-required rule is listed. -/
theorem validateMessage_rules_witness :
    ¬ validateMessage (normalizedPayload ⟨some "alice", some "bob", none, none, none, none⟩)
        (fun _ => none) 0 = []
    ∧ sendMessageHandler ⟨some "alice", some "bob", none, none, none, none⟩ "alice" none
        true (CircuitBreaker.create 5 30000 10000) 0 (fun _ => none)
        (fun _ => none) (fun _ => false) (fun _ => 0)
      = (SendOutcome.invalid
          (validateMessage (normalizedPayload ⟨some "alice", some "bob", none, none,
            none, none⟩) (fun _ => none) 0),
         CircuitBreaker.create 5 30000 10000) := by
  have h := (validateMessage_rules (⟨some "alice", some "bob", none, none, none, none⟩
    : MessagePayload) (fun _ => none) 0).2.2.2.2.2.2.2.2.2.2.2.2.2.2
  exact ⟨by decide, h ⟨some "alice", some "bob", none, none, none, none⟩ "alice" none
    (CircuitBreaker.create 5 30000 10000) (fun _ => none) (fun _ => false) (fun _ => 0)
    (by decide)⟩

/-- C4 (counterexample to "exactly one target"): a payload carrying both a
direct target and a group target violates the claim's
exactly-one-of rule yet is accepted by `validateMessage`, so
"rejects if and only if at least one rule is violated" fails for the rule
list as stated. -/
theorem validateMessage_bothTargets_accepted :
    validateMessage bothTargetsPayload (fun _ => none) 0 = []
    ∧ specExactlyOneTarget bothTargetsPayload = false := by
  constructor <;> rfl

/-! ## Message-service and handler theorems -/

theorem saveMessage_fastFail (msg : MessageRecord) (cb : CircuitBreaker) (now : Int)
    (attempts : Nat → Option MessageRecord) (retr : Nat → Bool) (jit : Nat → ℚ)
    (ho : cb.state = CBState.OPEN) (hlt : now < cb.nextAttemptTime.getD 0) :
    saveMessage msg cb now attempts retr jit = (pendingRecord msg now, cb) := by
  unfold saveMessage executeWithRetry CircuitBreaker.execute
  simp [ho, hlt]

theorem saveMessage_attempted (msg : MessageRecord) (cb : CircuitBreaker) (now : Int)
    (attempts : Nat → Option MessageRecord) (retr : Nat → Bool) (jit : Nat → ℚ)
    (hno : ¬ (cb.state = CBState.OPEN ∧ now < cb.nextAttemptTime.getD 0)) :
    (∀ c, (retryWithBackoff attempts retr 1000 2 jit 3).result = some c →
      (saveMessage msg cb now attempts retr jit).1 = c)
    ∧ ((retryWithBackoff attempts retr 1000 2 jit 3).result = none →
      (saveMessage msg cb now attempts retr jit).1 = failedRecord msg now) := by
  unfold saveMessage executeWithRetry CircuitBreaker.execute
  by_cases ho : cb.state = CBState.OPEN
  · have hlt : ¬ now < cb.nextAttemptTime.getD 0 := fun hlt => hno ⟨ho, hlt⟩
    constructor
    · intro c hc
      simp [ho, hlt, hc]
    · intro hc
      simp [ho, hlt, hc]
  · constructor
    · intro c hc
      by_cases hh : cb.state = CBState.HALF_OPEN <;> simp [ho, hh, hc]
    · intro hc
      simp [ho, hc]

theorem privateEvents_getLast (rsid : Option String) (saved : MessageRecord) :
    (privateEvents rsid saved).getLast? = some (Emit.messageSent saved) := by
  cases rsid <;> rfl

theorem sendMessageHandler_sent_shape (data : MessagePayload) (socketUserId : String)
    (rsid : Option String) (rl : Bool) (cb : CircuitBreaker) (now : Int)
    (pd : String → Option Int) (attempts : Nat → Option MessageRecord)
    (retr : Nat → Bool) (jit : Nat → ℚ) (r : MessageRecord) (evs : List Emit)
    (tmr : Option TimerSpec) (cb' : CircuitBreaker)
    (h : sendMessageHandler data socketUserId rsid rl cb now pd attempts retr jit
          = (SendOutcome.sent r evs tmr, cb')) :
    r = (saveMessage (builtMessage data) cb now attempts retr jit).1
    ∧ cb' = (saveMessage (builtMessage data) cb now attempts retr jit).2
    ∧ ((jsTruthy data.group_id = true
          ∧ evs = groupEvents data r ∧ tmr = groupTimer data r pd now)
      ∨ (jsTruthy data.group_id = false
          ∧ evs = privateEvents rsid r ∧ tmr = privateTimer rsid r pd now)) := by
  unfold sendMessageHandler at h
  split at h
  · simp at h
  · split at h
    · simp at h
    · split at h
      · simp at h
      · split at h
        · simp at h
        · split at h
          · rename_i hg
            simp only [Prod.mk.injEq, SendOutcome.sent.injEq] at h
            obtain ⟨⟨hr, hevs, htmr⟩, hcb⟩ := h
            subst hr
            exact ⟨rfl, hcb.symm, Or.inl ⟨by simpa using hg, hevs.symm, htmr.symm⟩⟩
          · rename_i hg
            simp only [Prod.mk.injEq, SendOutcome.sent.injEq] at h
            obtain ⟨⟨hr, hevs, htmr⟩, hcb⟩ := h
            subst hr
            exact ⟨rfl, hcb.symm, Or.inr ⟨by simpa using hg, hevs.symm, htmr.symm⟩⟩

/-- C1: `saveMessage` always hands its caller a message record.  While the
circuit is open and rejecting, the result is the provisional record with
the message's own fields, a locally generated `temp_<now>` id and status
`pending`; otherwise, if some retry attempt succeeds, the result is the
chat-service's canonical record, and if the retry sequence throws, the
result is the provisional record with status `failed`; every result is one
of these three.  The provisional records keep every payload field.  And
whenever the `send_message` handler reaches the delivery stage, its last
emission is the `message_sent` confirmation carrying exactly the saved
(possibly provisional) record, so the sender always receives a definitive
outcome. -/
theorem saveMessage_definitive_outcome (msg : MessageRecord) (cb : CircuitBreaker)
    (now : Int) (attempts : Nat → Option MessageRecord) (retr : Nat → Bool)
    (jit : Nat → ℚ) :
    ((cb.state = CBState.OPEN ∧ now < cb.nextAttemptTime.getD 0) →
      (saveMessage msg cb now attempts retr jit).1 = pendingRecord msg now)
    ∧ (¬ (cb.state = CBState.OPEN ∧ now < cb.nextAttemptTime.getD 0) →
      (∀ c, (retryWithBackoff attempts retr 1000 2 jit 3).result = some c →
        (saveMessage msg cb now attempts retr jit).1 = c)
      ∧ ((retryWithBackoff attempts retr 1000 2 jit 3).result = none →
        (saveMessage msg cb now attempts retr jit).1 = failedRecord msg now))
    ∧ ((saveMessage msg cb now attempts retr jit).1 = pendingRecord msg now
      ∨ (saveMessage msg cb now attempts retr jit).1 = failedRecord msg now
      ∨ ∃ c, (retryWithBackoff attempts retr 1000 2 jit 3).result = some c
          ∧ (saveMessage msg cb now attempts retr jit).1 = c)
    ∧ ((pendingRecord msg now).status = some "pending"
      ∧ (pendingRecord msg now).recId = some (tempId now)
      ∧ (pendingRecord msg now).sender_id = msg.sender_id
      ∧ (pendingRecord msg now).receiver_id = msg.receiver_id
      ∧ (pendingRecord msg now).group_id = msg.group_id
      ∧ (pendingRecord msg now).content = msg.content
      ∧ (pendingRecord msg now).message_type = msg.message_type
      ∧ (pendingRecord msg now).expires_at = msg.expires_at
      ∧ (failedRecord msg now).status = some "failed"
      ∧ (failedRecord msg now).recId = some (tempId now)
      ∧ (failedRecord msg now).sender_id = msg.sender_id
      ∧ (failedRecord msg now).receiver_id = msg.receiver_id
      ∧ (failedRecord msg now).group_id = msg.group_id
      ∧ (failedRecord msg now).content = msg.content
      ∧ (failedRecord msg now).message_type = msg.message_type
      ∧ (failedRecord msg now).expires_at = msg.expires_at)
    ∧ (∀ (data : MessagePayload) (socketUserId : String) (rsid : Option String)
        (rl : Bool) (pd : String → Option Int) (r : MessageRecord) (evs : List Emit)
        (tmr : Option TimerSpec) (cb' : CircuitBreaker),
        sendMessageHandler data socketUserId rsid rl cb now pd attempts retr jit
          = (SendOutcome.sent r evs tmr, cb') →
        evs.getLast? = some (Emit.messageSent r)) := by
  refine ⟨?_, saveMessage_attempted msg cb now attempts retr jit, ?_, ?_, ?_⟩
  · intro ⟨ho, hlt⟩
    rw [saveMessage_fastFail msg cb now attempts retr jit ho hlt]
  · by_cases hff : cb.state = CBState.OPEN ∧ now < cb.nextAttemptTime.getD 0
    · left
      rw [saveMessage_fastFail msg cb now attempts retr jit hff.1 hff.2]
    · cases hres : (retryWithBackoff attempts retr 1000 2 jit 3).result with
      | some c =>
        right; right
        exact ⟨c, rfl, (saveMessage_attempted msg cb now attempts retr jit hff).1 c hres⟩
      | none =>
        right; left
        exact (saveMessage_attempted msg cb now attempts retr jit hff).2 hres
  · exact ⟨rfl, rfl, rfl, rfl, rfl, rfl, rfl, rfl, rfl, rfl, rfl, rfl, rfl, rfl, rfl, rfl⟩
  · intro data socketUserId rsid rl pd r evs tmr cb' h
    obtain ⟨hr, hcb, hsplit⟩ :=
      sendMessageHandler_sent_shape data socketUserId rsid rl cb now pd attempts retr jit
        r evs tmr cb' h
    rcases hsplit with ⟨_, hevs, _⟩ | ⟨_, hevs, _⟩
    · rw [hevs]; rfl
    · rw [hevs]
      exact privateEvents_getLast rsid r

/-- C1 witness: with the breaker open and rejecting at time 5, saving a
private message yields the provisional `pending` record. -/
theorem saveMessage_definitive_outcome_witness :
    (openBreaker.state = CBState.OPEN ∧ (5 : Int) < openBreaker.nextAttemptTime.getD 0)
    ∧ (saveMessage demoPrivateMessage openBreaker 5
        (fun _ => none) (fun _ => false) (fun _ => 0)).1
      = pendingRecord demoPrivateMessage 5 :=
  ⟨⟨rfl, by decide⟩,
    (saveMessage_definitive_outcome demoPrivateMessage openBreaker 5
      (fun _ => none) (fun _ => false) (fun _ => 0)).1 ⟨rfl, by decide⟩⟩

theorem scheduleExpiry_isSome (ea : Option String) (pd : String → Option Int)
    (now : Int) (fire : List Emit) :
    (scheduleExpiry ea pd now fire).isSome = true
      ↔ ∃ s t, ea = some s ∧ ¬ s = "" ∧ pd s = some t ∧ now < t := by
  cases ea with
  | none => simp [scheduleExpiry]
  | some s =>
    by_cases hs : s = ""
    · simp [scheduleExpiry, hs]
    · have hbeq : (s == "") = false := by simpa using hs
      cases hp : pd s with
      | none => simp [scheduleExpiry, hbeq, hp, hs]
      | some t =>
        by_cases ht : t - now > 0
        · simp [scheduleExpiry, hbeq, hp, hs, ht, show now < t by omega]
        · simp [scheduleExpiry, hbeq, hp, hs, ht, show ¬ now < t by omega]

theorem scheduleExpiry_some (ea : Option String) (pd : String → Option Int)
    (now : Int) (fire : List Emit) (ts : TimerSpec)
    (h : scheduleExpiry ea pd now fire = some ts) :
    ts.fire = fire ∧ ∃ s t, ea = some s ∧ pd s = some t ∧ ts.delayMs = t - now := by
  cases ea with
  | none => simp [scheduleExpiry] at h
  | some s =>
    by_cases hs : (s == "") = true
    · simp [scheduleExpiry, hs] at h
    · simp only [scheduleExpiry] at h
      rw [if_neg hs] at h
      cases hp : pd s with
      | none =>
        rw [hp] at h
        dsimp only at h
        cases h
      | some t =>
        rw [hp] at h
        dsimp only at h
        by_cases ht : t - now > 0
        · rw [if_pos ht] at h
          cases h
          exact ⟨rfl, s, t, rfl, hp, rfl⟩
        · rw [if_neg ht] at h
          cases h

/-- C7: whenever `send_message` reaches delivery, the one-shot deletion
timer is armed if and only if the saved (possibly provisional) record
carries a truthy expiry timestamp that parses to an instant strictly after
the current clock (so a non-positive delta arms nothing and no deletion is
ever emitted for it); and when armed, the timer fires exactly one batch of
deletion signals aimed at the same recipients that received the message —
on the group path a single signal to the very room the record was broadcast
to, on the private path a signal to the sender's own socket plus one to
exactly the socket that received the record, when one was registered. -/
theorem sendMessage_expiry_scheduling (data : MessagePayload) (socketUserId : String)
    (rsid : Option String) (rl : Bool) (cb : CircuitBreaker) (now : Int)
    (pd : String → Option Int) (attempts : Nat → Option MessageRecord)
    (retr : Nat → Bool) (jit : Nat → ℚ) (r : MessageRecord) (evs : List Emit)
    (tmr : Option TimerSpec) (cb' : CircuitBreaker)
    (h : sendMessageHandler data socketUserId rsid rl cb now pd attempts retr jit
          = (SendOutcome.sent r evs tmr, cb')) :
    (tmr.isSome = true
      ↔ ∃ s t, r.expires_at = some s ∧ ¬ s = "" ∧ pd s = some t ∧ now < t)
    ∧ (∀ ts, tmr = some ts →
        (∃ s t, r.expires_at = some s ∧ pd s = some t ∧ ts.delayMs = t - now)
        ∧ ((jsTruthy data.group_id = true
              ∧ ts.fire = [Emit.deleteRoom (groupRoomId data) (deliveredId r)]
              ∧ Emit.receiveRoom (groupRoomId data) r ∈ evs)
          ∨ (jsTruthy data.group_id = false
              ∧ ts.fire = privateDeleteEvents rsid (deliveredId r)
              ∧ (∀ sid, rsid = some sid → Emit.receiveSocket sid r ∈ evs)))) := by
  obtain ⟨hr, hcb, hsplit⟩ :=
    sendMessageHandler_sent_shape data socketUserId rsid rl cb now pd attempts retr jit
      r evs tmr cb' h
  rcases hsplit with ⟨hg, hevs, htmr⟩ | ⟨hg, hevs, htmr⟩
  · subst htmr
    constructor
    · exact scheduleExpiry_isSome r.expires_at pd now _
    · intro ts hts
      obtain ⟨hfire, hdelay⟩ := scheduleExpiry_some r.expires_at pd now _ ts hts
      refine ⟨hdelay, Or.inl ⟨hg, hfire, ?_⟩⟩
      rw [hevs]
      simp [groupEvents]
  · subst htmr
    constructor
    · exact scheduleExpiry_isSome r.expires_at pd now _
    · intro ts hts
      obtain ⟨hfire, hdelay⟩ := scheduleExpiry_some r.expires_at pd now _ ts hts
      refine ⟨hdelay, Or.inr ⟨hg, hfire, ?_⟩⟩
      intro sid hsid
      subst hsid
      rw [hevs]
      simp [privateEvents]

/-- C7 witness: a group message whose record carries expiry `E` parsing to
instant 500 at time 0 arms a timer, and the iff characterizes it. -/
theorem sendMessage_expiry_scheduling_witness :
    sendMessageHandler expiryDemoPayload "alice" none true
        (CircuitBreaker.create 5 30000 10000) 0 expiryDemoParse
        (fun _ => none) (fun _ => false) (fun _ => 0)
      = (SendOutcome.sent expiryDemoSaved (groupEvents expiryDemoPayload expiryDemoSaved)
          (groupTimer expiryDemoPayload expiryDemoSaved expiryDemoParse 0),
         (saveMessage (builtMessage expiryDemoPayload) (CircuitBreaker.create 5 30000 10000)
            0 (fun _ => none) (fun _ => false) (fun _ => 0)).2)
    ∧ ((groupTimer expiryDemoPayload expiryDemoSaved expiryDemoParse 0).isSome = true
        ↔ ∃ s t, expiryDemoSaved.expires_at = some s ∧ ¬ s = ""
            ∧ expiryDemoParse s = some t ∧ (0 : Int) < t) :=
  ⟨by rfl,
    (sendMessage_expiry_scheduling expiryDemoPayload "alice" none true
      (CircuitBreaker.create 5 30000 10000) 0 expiryDemoParse
      (fun _ => none) (fun _ => false) (fun _ => 0) expiryDemoSaved
      (groupEvents expiryDemoPayload expiryDemoSaved)
      (groupTimer expiryDemoPayload expiryDemoSaved expiryDemoParse 0)
      ((saveMessage (builtMessage expiryDemoPayload) (CircuitBreaker.create 5 30000 10000)
          0 (fun _ => none) (fun _ => false) (fun _ => 0)).2) (by rfl)).1⟩

/-- C10: a well-formed payload carrying both a direct target and a group
target passes validation, and the handler treats it as a group message:
the built record drops `receiver_id` and carries `group_id` with
`chat_type` group, the handler takes the group branch, and the saved record
is broadcast to the room `group_<group_id>` derived from the group target —
`receiver_id` plays no part in routing. -/
theorem sendMessage_bothTargets_group_routing (socketUserId r g c : String)
    (rsid : Option String) (cb : CircuitBreaker) (now : Int) (pd : String → Option Int)
    (jit : Nat → ℚ)
    (hu0 : ¬ socketUserId = "") (hu1 : ¬ (jsTrim socketUserId).length = 0)
    (hu2 : socketUserId.length ≤ MAX_USER_ID_LENGTH)
    (hr0 : ¬ r = "") (hr1 : r.length ≤ MAX_RECEIVER_ID_LENGTH)
    (hg0 : ¬ g = "") (hg1 : g.length ≤ MAX_GROUP_ID_LENGTH)
    (hc0 : ¬ c = "") (hc1 : ¬ (jsTrim c).length = 0)
    (hc2 : c.length ≤ MAX_MESSAGE_LENGTH) :
    validateMessage
        (normalizedPayload ⟨some socketUserId, some r, some g, some c, none, none⟩) pd now
      = []
    ∧ (builtMessage ⟨some socketUserId, some r, some g, some c, none, none⟩).receiver_id
      = none
    ∧ (builtMessage ⟨some socketUserId, some r, some g, some c, none, none⟩).group_id
      = some g
    ∧ (builtMessage ⟨some socketUserId, some r, some g, some c, none, none⟩).chat_type
      = "group"
    ∧ sendMessageHandler ⟨some socketUserId, some r, some g, some c, none, none⟩
        socketUserId rsid true cb now pd (fun _ => none) (fun _ => false) jit
      = (SendOutcome.sent
          (saveMessage (builtMessage ⟨some socketUserId, some r, some g, some c, none, none⟩)
            cb now (fun _ => none) (fun _ => false) jit).1
          (groupEvents ⟨some socketUserId, some r, some g, some c, none, none⟩
            (saveMessage (builtMessage ⟨some socketUserId, some r, some g, some c, none, none⟩)
              cb now (fun _ => none) (fun _ => false) jit).1)
          (groupTimer ⟨some socketUserId, some r, some g, some c, none, none⟩
            (saveMessage (builtMessage ⟨some socketUserId, some r, some g, some c, none, none⟩)
              cb now (fun _ => none) (fun _ => false) jit).1 pd now),
         (saveMessage (builtMessage ⟨some socketUserId, some r, some g, some c, none, none⟩)
            cb now (fun _ => none) (fun _ => false) jit).2)
    ∧ (∀ saved : MessageRecord,
        groupEvents ⟨some socketUserId, some r, some g, some c, none, none⟩ saved
          = [Emit.receiveRoom ("group_" ++ g) saved, Emit.messageSent saved]) := by
  have hval : validateMessage
      (normalizedPayload ⟨some socketUserId, some r, some g, some c, none, none⟩) pd now
      = [] := by
    rw [validateMessage_eq_nil]
    refine ⟨?_, ?_, ?_, rfl, rfl⟩
    · simp [specSenderOk, normalizedPayload, jsTruthy, hu0, hu1, hu2]
    · simp [specTargetOk, normalizedPayload, jsTruthy, hr0, hg0, hr1, hg1]
    · simp [specContentOk, normalizedPayload, jsTruthy, hc0, hc1, hc2]
  refine ⟨hval, ?_, ?_, ?_, ?_, ?_⟩
  · simp [builtMessage, jsTruthy, hg0]
  · simp [builtMessage, jsTruthy, hg0]
  · simp [builtMessage, jsTruthy, hg0]
  · simp [sendMessageHandler, hval, jsTruthy, hg0]
  · intro saved
    simp [groupEvents, groupRoomId]

/-- C10 witness: identity `alice` sends to both `bob` and group `g1`; the
payload validates and the built record drops the direct target. -/
theorem sendMessage_bothTargets_group_routing_witness :
    validateMessage (normalizedPayload ⟨some "alice", some "bob", some "g1", some "hi",
        none, none⟩) (fun _ => none) 0 = []
    ∧ (builtMessage ⟨some "alice", some "bob", some "g1", some "hi", none, none⟩).receiver_id
      = none
    ∧ (builtMessage ⟨some "alice", some "bob", some "g1", some "hi", none, none⟩).group_id
      = some "g1" := by
  have h := sendMessage_bothTargets_group_routing "alice" "bob" "g1" "hi" none
    (CircuitBreaker.create 5 30000 10000) 0 (fun _ => none) (fun _ => 0)
    (by decide) (by decide) (by decide) (by decide) (by decide) (by decide) (by decide)
    (by decide) (by decide) (by decide)
  exact ⟨h.1, h.2.1, h.2.2.1⟩

end DLite
